import Mathlib

/-!
Verification of the creative-agency-pipeline repository.

Shallow embedding of the Python sources in `src/`:

* `src/models.py`           → the data structures `Product`, `TargetMarket`,
  `BrandElements`, `CampaignBrief`, `AspectRatio`, `GeneratedAsset`.
* `src/brief_parser.py`     → `validate_brief`.
* `src/asset_manager.py`    → `find_asset`, `save_output` (the filesystem is
  modelled as the list of existing paths; `Path(x).name` as `pathName`).
* `src/image_generator.py`  → `build_prompt`, `generate`, `generate_with_retry`
  (the DALL-E backend is a parameter giving each attempt's outcome).
* `src/brand_compliance.py` → `hex_to_rgb`, `check_color_presence`,
  `run_brand_checks` (the `image.resize((100,100)).getdata()` sampling done by
  PIL is a parameter; the check itself runs on the sampled pixel list).
* `src/content_moderator.py`→ `check_prohibited_terms`, `moderate_text`,
  `moderate_campaign_message`.
* `src/localizer.py`        → `translate_text`, `get_font_for_language`
  (the GoogleTranslator backend is a parameter; `none` models a raised error).
* `src/pipeline.py`         → `CreativePipeline.run` as `run`, split into
  `localize`, `resolve_hero`, `render_variant`, `process_ratio`,
  `process_product`, `process_products` and `generate_report`
  (`CreativePipeline._generate_report`).

Python exceptions are `Except String`; a Python value that may be `None` is an
`Option`.  Machine-external operations (PIL image transforms, network calls,
file writes) are parameters of the pipeline environment `PipelineEnv`; every
policy decision and all state accumulation of the orchestrator is embedded.
Scores in `brand_compliance.py` only ever take the values 0.0, 50.0 and 100.0,
so they are embedded as `Nat`.  Python `str.lower()` is embedded as ASCII
lowercasing (`Char.toLower` on the character list).
-/

namespace CreativeAgency

/-- Python truthiness of an optional string: `None` and `""` are falsy.
Used for `if not asset_path`, `if not self.brand_color`, `if not p.hero_image`
and `if brief.brand_elements.logo`. -/
def optStrFalsy : Option String → Bool
  | none => true
  | some s => s = ""

/-- Python `str.lower()` (ASCII model): lowercase every character. -/
def strLower (s : String) : String :=
  String.mk (s.data.map Char.toLower)

/-- Python `sub in s`: substring containment, as contiguous-sublist
containment of the character lists. -/
def strContainsSub (s sub : String) : Bool :=
  decide (sub.data <:+: s.data)

/-- Split a character list at a separator character. Never returns `[]`. -/
def splitChar (sep : Char) : List Char → List (List Char)
  | [] => [[]]
  | c :: cs =>
    match splitChar sep cs with
    | [] => [[]]
    | h :: t => if c = sep then [] :: h :: t else (c :: h) :: t

/-- Python `pathlib.Path(p).name`: the last nonempty `/`-separated component
of the path (`""` when there is none). -/
def pathName (p : String) : String :=
  String.mk ((((splitChar '/' p.data).filter (fun c => c ≠ [])).getLast?).getD [])

/-- Python `language.split('-')[0]`: the characters before the first `-`. -/
def langBase (language : String) : String :=
  String.mk (language.data.takeWhile (fun c => c ≠ '-'))

/-! ## src/models.py -/

/-- Product information from campaign brief (src/models.py). -/
structure Product where
  id : String
  name : String
  description : String
  hero_image : Option String := none
deriving DecidableEq, Repr

/-- Target market information (src/models.py). -/
structure TargetMarket where
  region : String
  language : String := "en-US"
deriving DecidableEq, Repr

/-- Brand identity elements (src/models.py). -/
structure BrandElements where
  logo : Option String := none
  primary_color : String := "#000000"
  font : String := "Arial"
deriving DecidableEq, Repr

/-- Complete campaign brief structure (src/models.py). -/
structure CampaignBrief where
  campaign_id : String
  products : List Product
  target_market : TargetMarket
  target_audience : String
  campaign_message : String
  brand_elements : Option BrandElements := none
deriving DecidableEq, Repr

/-- Aspect ratio configuration (src/models.py). -/
structure AspectRatio where
  name : String
  ratio : List Nat
  width : Nat
  height : Nat
deriving DecidableEq, Repr

/-- Metadata for a generated asset (src/models.py). -/
structure GeneratedAsset where
  product_id : String
  product_name : String
  aspect_ratio : String
  file_path : String
  source : String
  prompt_used : Option String := none
deriving DecidableEq, Repr

/-! ## src/brief_parser.py -/

/-- `BriefParser.validate_brief`: returns `(is_valid, warnings)`.
Mirrors src/brief_parser.py lines 40-67: a warning when fewer than 2
products, one aggregated warning for products without hero images
(Python truthiness: a missing or empty `hero_image`), a warning when no
brand elements; `is_valid` is `len(products) >= 2`. -/
def validate_brief (brief : CampaignBrief) : Bool × List String :=
  let warnings1 :=
    if brief.products.length < 2 then
      ["Brief requires at least 2 products, found " ++ toString brief.products.length]
    else []
  let missing_images :=
    (brief.products.filter (fun p => optStrFalsy p.hero_image)).map (fun p => p.name)
  let warnings2 :=
    if missing_images ≠ [] then
      ["Products without hero images (will generate): " ++
        String.intercalate ", " missing_images]
    else []
  let warnings3 :=
    if brief.brand_elements.isNone then ["No brand elements specified"] else []
  (decide (2 ≤ brief.products.length), warnings1 ++ warnings2 ++ warnings3)

/-! ## src/asset_manager.py -/

/-- The fixed directory state seen by `AssetManager`: the set of paths for
which `Path.exists()` returns true, as a list. -/
structure FileSystem where
  existing : List String
deriving DecidableEq, Repr

/-- `Path.exists()` on the modelled directory state. -/
def FileSystem.pathExists (fs : FileSystem) (p : String) : Bool :=
  fs.existing.contains p

/-- Join two path segments with `/` (Python `a / b` on `Path`s). -/
def pathJoin (a b : String) : String := a ++ "/" ++ b

/-- `AssetManager.find_asset` (src/asset_manager.py lines 25-49): `None` for a
missing or empty reference; otherwise first try the reference relative to the
campaign root, then the reference's base filename inside `assets/`; first
existing match wins, otherwise `None`. -/
def find_asset (fs : FileSystem) (campaign_root : String)
    (asset_path : Option String) : Option String :=
  if optStrFalsy asset_path then none
  else
    let ap := asset_path.getD ""
    let full_path := pathJoin campaign_root ap
    if fs.pathExists full_path then some full_path
    else
      let assets_path := pathJoin (pathJoin campaign_root "assets") (pathName ap)
      if fs.pathExists assets_path then some assets_path
      else none

/-- `AssetManager.save_output` (src/asset_manager.py lines 78-107): the
deterministic output path `<campaign_root>/output/<product_id>/<ratio>/<filename>`
at which the image is written. -/
def save_output (campaign_root product_id aspect_ratio_name : String)
    (filename : String := "campaign_post.png") : String :=
  pathJoin (pathJoin (pathJoin (pathJoin campaign_root "output") product_id)
    aspect_ratio_name) filename

/-! ## src/image_generator.py -/

/-- The parts list built by `ImageGenerator.build_prompt`
(src/image_generator.py lines 27-58): four fixed-order parts, then the
color-accent part only when a truthy brand color is present
(`if brand_color:` — a missing or empty brand color is skipped), then the
final "Commercial photography, 4K quality." part. -/
def prompt_parts (product_name product_description target_audience : String)
    (brand_color : Option String) : List String :=
  let parts :=
    ["Professional product photography of " ++ product_name ++ ".",
     "Product details: " ++ product_description ++ ".",
     "Style: Clean, modern, appealing to " ++ target_audience ++ ".",
     "High quality, well-lit, studio setting."]
  let parts :=
    if optStrFalsy brand_color then parts
    else parts ++ ["Incorporate " ++ brand_color.getD "" ++ " color accent."]
  parts ++ ["Commercial photography, 4K quality."]

/-- `ImageGenerator.build_prompt`: the parts joined with single spaces. -/
def build_prompt (product_name product_description target_audience : String)
    (brand_color : Option String) : String :=
  String.intercalate " "
    (prompt_parts product_name product_description target_audience brand_color)

/-- `ImageGenerator.generate` (src/image_generator.py lines 60-113) for one
backend call whose outcome is `backend` (the image downloaded, or the error
raised by the API call / download): on success the image together with the
prompt, on failure the wrapped error message. -/
def generate {Img : Type} (backend : Except String Img)
    (product_name product_description target_audience : String)
    (brand_color : Option String) : Except String (Img × String) :=
  let prompt := build_prompt product_name product_description target_audience brand_color
  match backend with
  | .ok image => .ok (image, prompt)
  | .error e => .error ("Failed to generate image for " ++ product_name ++ ": " ++ e)

/-- Python `str(last_error)` where `last_error` starts as `None`. -/
def showLastError : Option String → String
  | none => "None"
  | some e => e

/-- The retry loop of `ImageGenerator.generate_with_retry`
(src/image_generator.py lines 115-155): `remaining` attempts left, `attempt`
the index of the next one; when attempts run out, the final error names the
attempt bound and the last error seen. -/
def retryLoop {Img : Type} (gen : Nat → Except String (Img × String))
    (max_retries : Nat) : Nat → Nat → Option String → Except String (Img × String)
  | 0, _, last_error =>
    .error ("Failed after " ++ toString max_retries ++ " attempts: " ++
      showLastError last_error)
  | remaining + 1, attempt, _ =>
    match gen attempt with
    | .ok r => .ok r
    | .error e => retryLoop gen max_retries remaining (attempt + 1) (some e)

/-- `ImageGenerator.generate_with_retry`: up to `max_retries` sequential
attempts (default 3); `backend k` is the outcome of the k-th backend call. -/
def generate_with_retry {Img : Type} (backend : Nat → Except String Img)
    (product_name product_description target_audience : String)
    (brand_color : Option String) (max_retries : Nat := 3) :
    Except String (Img × String) :=
  retryLoop
    (fun k => generate (backend k) product_name product_description
      target_audience brand_color)
    max_retries max_retries 0 none

/-! ## src/brand_compliance.py -/

/-- The value of one hexadecimal digit, `none` for a non-hex character. -/
def hexDigit? (c : Char) : Option Nat :=
  if '0' ≤ c ∧ c ≤ '9' then some (c.toNat - '0'.toNat)
  else if 'a' ≤ c ∧ c ≤ 'f' then some (c.toNat - 'a'.toNat + 10)
  else if 'A' ≤ c ∧ c ≤ 'F' then some (c.toNat - 'A'.toNat + 10)
  else none

/-- Accumulating helper for `parseHexNat?`. -/
def parseHexGo : List Char → Nat → Option Nat
  | [], acc => some acc
  | c :: rest, acc =>
    match hexDigit? c with
    | some d => parseHexGo rest (acc * 16 + d)
    | none => none

/-- Python `int(s, 16)` on a plain digit string: `none` (a raised
`ValueError`) when the string is empty or holds a non-hex character. -/
def parseHexNat? : List Char → Option Nat
  | [] => none
  | cs => parseHexGo cs 0

/-- `BrandComplianceChecker._hex_to_rgb` (src/brand_compliance.py lines
129-132): strip leading `#`, then parse the slices `[0:2]`, `[2:4]`, `[4:6]`
as hexadecimal; `none` models the `ValueError` Python raises on an empty or
non-hex slice. -/
def hex_to_rgb (hex_color : String) : Option (Nat × Nat × Nat) :=
  let h := hex_color.data.dropWhile (fun c => c = '#')
  match parseHexNat? ((h.drop 0).take 2), parseHexNat? ((h.drop 2).take 2),
      parseHexNat? ((h.drop 4).take 2) with
  | some r, some g, some b => some (r, g, b)
  | _, _, _ => none

/-- Result of a compliance check (src/brand_compliance.py, class
`ComplianceResult`). The score is 0, 50 or 100 in the code. -/
structure ComplianceResult where
  check_name : String
  passed : Bool
  score : Nat
  message : String
  details : List (String × String) := []
deriving DecidableEq, Repr

/-- One sampled pixel matches the brand color: at least three channels, each
of the first three within the tolerance of the brand channel (strict `<`,
channel-wise absolute difference), src/brand_compliance.py lines 63-70. -/
def pixelMatches (brand_rgb : Nat × Nat × Nat) (tolerance : Nat)
    (pixel : List Nat) : Bool :=
  match pixel with
  | r :: g :: b :: _ =>
    Nat.dist r brand_rgb.1 < tolerance && Nat.dist g brand_rgb.2.1 < tolerance &&
      Nat.dist b brand_rgb.2.2 < tolerance
  | _ => false

/-- `BrandComplianceChecker.check_color_presence` (src/brand_compliance.py
lines 40-101) on the sampled pixel list (the list PIL's
`image.resize((100,100)).getdata()` yields). A falsy brand color (Python
`if not self.brand_color`) passes with score 100; an invalid hex color takes
the `except` branch (failed, score 0); otherwise passed/100 when some pixel is
within tolerance 30 of the brand RGB, else failed/50. -/
def check_color_presence (brand_color : Option String)
    (pixels : List (List Nat)) : ComplianceResult :=
  if optStrFalsy brand_color then
    { check_name := "color_presence", passed := true, score := 100,
      message := "No brand color specified - skipped" }
  else
    let color := brand_color.getD ""
    match hex_to_rgb color with
    | none =>
      { check_name := "color_presence", passed := false, score := 0,
        message := "Color check failed: invalid hex color" }
    | some brand_rgb =>
      let tolerance := 30
      let color_found := pixels.any (pixelMatches brand_rgb tolerance)
      if color_found then
        { check_name := "color_presence", passed := true, score := 100,
          message := "Brand color " ++ color ++ " detected" }
      else
        { check_name := "color_presence", passed := false, score := 50,
          message := "Brand color " ++ color ++ " not prominently featured",
          details := [("brand_color", color)] }

/-- The dictionary `BrandComplianceChecker.run_brand_checks` returns
(src/brand_compliance.py lines 103-127). -/
structure BrandCheckReport where
  overall_passed : Bool
  overall_score : Nat
  color_presence : ComplianceResult
deriving DecidableEq, Repr

/-- `BrandComplianceChecker.run_brand_checks`: runs the color-presence check
only (the stored `logo_path` is never consulted) and reports its outcome as
the overall one. -/
def run_brand_checks (brand_color : Option String)
    (pixels : List (List Nat)) : BrandCheckReport :=
  let color_check := check_color_presence brand_color pixels
  { overall_passed := color_check.passed, overall_score := color_check.score,
    color_presence := color_check }

/-! ## src/content_moderator.py -/

/-- `ContentModerator._load_default_terms`. -/
def default_prohibited_terms : List String := ["guaranteed", "miracle", "cure"]

/-- `ContentModerator.check_prohibited_terms` (src/content_moderator.py lines
83-100): the prohibited terms that occur, case-insensitively, as substrings
of the text, in term-list order. -/
def check_prohibited_terms (prohibited_terms : List String) (text : String) :
    List String :=
  prohibited_terms.filter (fun term => strContainsSub (strLower text) (strLower term))

/-- `ContentModerator._ai_moderation_check`: a stub that never flags. -/
def ai_moderation_check (_text : String) : Bool := false

/-- Result of content moderation (src/content_moderator.py, class
`ModerationResult`; the `categories` dict is always empty). -/
structure ModerationResult where
  flagged : Bool
  prohibited_terms : List String
deriving DecidableEq, Repr

/-- `ModerationResult.is_safe`. -/
def ModerationResult.is_safe (r : ModerationResult) : Bool :=
  !r.flagged && r.prohibited_terms.isEmpty

/-- `ContentModerator.moderate_text` (src/content_moderator.py lines 35-56). -/
def moderate_text (prohibited_terms : List String) (text : String) :
    ModerationResult :=
  { flagged := ai_moderation_check text,
    prohibited_terms := check_prohibited_terms prohibited_terms text }

/-- `ContentModerator.moderate_campaign_message` (src/content_moderator.py
lines 103-129): `.error` models the `ValueError` raised when `strict` and the
message is unsafe; otherwise `.ok safe?`. -/
def moderate_campaign_message (prohibited_terms : List String)
    (message : String) (strict : Bool := false) : Except String Bool :=
  let result := moderate_text prohibited_terms message
  if !result.is_safe then
    let error_msg := "Campaign message failed moderation:\n  - Prohibited terms found: "
      ++ String.intercalate ", " result.prohibited_terms ++ "\n"
    if strict then .error error_msg else .ok false
  else .ok true

/-- The moderation call the orchestrator makes (src/pipeline.py line 101):
default prohibited terms, and `strict` left at its default `False`. -/
def pipeline_moderation (message : String) : Except String Bool :=
  moderate_campaign_message default_prohibited_terms message false

/-! ## src/localizer.py -/

/-- `Localizer.translate_text` (src/localizer.py lines 21-49). `translator`
models the GoogleTranslator backend: given source language, target language
and text it returns the translation, or `none` when the backend raises.
No call is made when target equals source; a backend failure falls back to
the original text. -/
def translate_text (translator : String → String → String → Option String)
    (text : String) (target_language : String) (source_language : String := "en") :
    String :=
  if target_language = source_language then text
  else
    match translator source_language target_language text with
    | some result => result
    | none => text

/-- `Localizer._get_font_map`. -/
def font_map : List (String × String) :=
  [("en", "Arial"), ("es", "Arial"), ("ja", "Noto Sans JP")]

/-- `Localizer.get_font_for_language`: table lookup on the lowercased code,
defaulting to Arial. -/
def get_font_for_language (language : String) : String :=
  ((font_map.lookup (strLower language)).getD "Arial")

/-! ## src/pipeline.py -/

/-- The `aspect_ratios` entry of `CreativePipeline._load_config`
(src/pipeline.py lines 50-67). -/
def default_aspect_ratios : List AspectRatio :=
  [{ name := "square", ratio := [1, 1], width := 1080, height := 1080 },
   { name := "story", ratio := [9, 16], width := 1080, height := 1920 },
   { name := "landscape", ratio := [16, 9], width := 1920, height := 1080 }]

/-- The machine-external collaborators of one pipeline run, over an abstract
image type: the directory state and campaign root (`AssetManager`), PIL image
loading (`AssetManager.load_image`, which may raise on a corrupt file), the
generation backend's outcome per product and attempt, the pure image
transforms of `ImageProcessor` (the campaign message is the only overlay
input the orchestrator chooses per run; the static text/logo configuration is
part of the transform), the pixel sampling `image.resize((100,100)).getdata()`
used by the compliance checker, and the translation backend. -/
structure PipelineEnv (Img : Type) where
  fs : FileSystem
  campaign_root : String
  load_image : String → Except String Img
  backend : Product → Nat → Except String Img
  resize_for_aspect_ratio : Img → Nat → Nat → Img
  add_text_overlay : Img → String → Img
  add_logo : Img → String → Img
  sample_pixels : Img → List (List Nat)
  translator : String → String → String → Option String

/-- One entry of `CreativePipeline.compliance_results`
(src/pipeline.py lines 195-199). -/
structure ComplianceEntry where
  product_id : String
  product_name : String
  compliance : BrandCheckReport
deriving DecidableEq, Repr

/-- One `AssetManager.save_output` call made by the run, with the arguments
the orchestrator passed and the path written. -/
structure SaveEvent where
  product_id : String
  aspect_ratio : String
  path : String
deriving DecidableEq, Repr

/-- The accumulating instance state of `CreativePipeline` during a run:
`generated_assets`, `compliance_results`, and the output files written. -/
structure RunState where
  generated_assets : List GeneratedAsset
  compliance_results : List ComplianceEntry
  saved : List SaveEvent
deriving DecidableEq, Repr

/-- The empty state a run starts from. -/
def RunState.empty : RunState := { generated_assets := [], compliance_results := [], saved := [] }

/-- The localization block of the report (src/pipeline.py lines 260-265). -/
structure LocalizationReport where
  enabled : Bool
  target_language : String
  original_message : String
  localized_message : Option String
deriving DecidableEq, Repr

/-- A variants entry of a product report (src/pipeline.py lines 295-301). -/
structure VariantReport where
  aspect_ratio : String
  file_path : String
deriving DecidableEq, Repr

/-- A products entry of the report (src/pipeline.py lines 289-302). -/
structure ProductReport where
  product_id : String
  product_name : String
  source : String
  prompt_used : Option String
  compliance : Option BrandCheckReport
  variants : List VariantReport
deriving DecidableEq, Repr

/-- The statistics block of the report (src/pipeline.py lines 269-276). -/
structure Statistics where
  total_products : Nat
  total_assets : Nat
  assets_generated : Nat
  assets_reused : Nat
  compliance_passed : Nat
  compliance_total : Nat
deriving DecidableEq, Repr

/-- The report `CreativePipeline._generate_report` assembles
(src/pipeline.py lines 253-303). -/
structure Report where
  campaign_id : String
  localization : LocalizationReport
  products : List ProductReport
  statistics : Statistics
deriving DecidableEq, Repr

/-- What one pipeline run leaves behind: the returned report or the raised
error, together with the accumulated instance state (which Python keeps even
when the run raises). -/
structure RunOutcome where
  result : Except String Report
  state : RunState

/-- `brief.target_market.language not in ['en', 'en-US']`: the condition
under which the orchestrator localizes (src/pipeline.py line 108) and under
which the report marks localization enabled (line 261). -/
def localizationEnabled (brief : CampaignBrief) : Bool :=
  brief.target_market.language ≠ "en" && brief.target_market.language ≠ "en-US"

/-- Step 1.6 of `CreativePipeline.run` (src/pipeline.py lines 106-122): when
the language is neither `en` nor `en-US`, overwrite `campaign_message` with
its translation into the base language code and, when brand elements exist,
their font with the language-appropriate one; otherwise the brief passes
through unchanged. -/
def localize {Img : Type} (env : PipelineEnv Img) (brief : CampaignBrief) :
    CampaignBrief :=
  if localizationEnabled brief then
    let target_lang := langBase brief.target_market.language
    { brief with
      campaign_message := translate_text env.translator brief.campaign_message target_lang "en",
      brand_elements := brief.brand_elements.map
        (fun be => { be with font := get_font_for_language target_lang }) }
  else brief

/-- The per-product asset resolution of `CreativePipeline.run`
(src/pipeline.py lines 130-148): an existing hero image is loaded with
`source = "existing"` and no prompt; otherwise the image is generated with
retry, `source = "generated"` and the prompt recorded.  `.error` models the
exception propagating out of the run. -/
def resolve_hero {Img : Type} (env : PipelineEnv Img) (brief : CampaignBrief)
    (product : Product) : Except String (Img × String × Option String) :=
  match find_asset env.fs env.campaign_root product.hero_image with
  | some hero_image_path =>
    match env.load_image hero_image_path with
    | .ok hero_image => .ok (hero_image, "existing", none)
    | .error e => .error e
  | none =>
    match generate_with_retry (env.backend product) product.name
        product.description brief.target_audience
        (brief.brand_elements.map (fun be => be.primary_color)) 3 with
    | .ok (hero_image, prompt_used) => .ok (hero_image, "generated", some prompt_used)
    | .error e => .error e

/-- The per-ratio rendering of `CreativePipeline.run` (src/pipeline.py lines
157-185): resize, overlay the (possibly localized) campaign message, and
composite the logo only when brand elements name one (Python truthiness) that
`find_asset` resolves. -/
def render_variant {Img : Type} (env : PipelineEnv Img) (brief : CampaignBrief)
    (hero_image : Img) (ratio : AspectRatio) : Img :=
  let resized := env.resize_for_aspect_ratio hero_image ratio.width ratio.height
  let with_text := env.add_text_overlay resized brief.campaign_message
  match brief.brand_elements with
  | some be =>
    if optStrFalsy be.logo then with_text
    else
      match find_asset env.fs env.campaign_root be.logo with
      | some logo_path => env.add_logo with_text logo_path
      | none => with_text
  | none => with_text

/-- One iteration of the aspect-ratio loop of `CreativePipeline.run`
(src/pipeline.py lines 153-224): render the variant; when the ratio is named
"square", run the brand checks and append the compliance entry; save the
output and append the `GeneratedAsset` record — unconditionally, whatever the
compliance outcome. -/
def process_ratio {Img : Type} (env : PipelineEnv Img) (brief : CampaignBrief)
    (product : Product) (hero_image : Img) (source : String)
    (prompt_used : Option String) (st : RunState) (ratio : AspectRatio) :
    RunState :=
  let with_text := render_variant env brief hero_image ratio
  let st :=
    if ratio.name = "square" then
      let brand_color := brief.brand_elements.map (fun be => be.primary_color)
      let compliance_result := run_brand_checks brand_color (env.sample_pixels with_text)
      { st with compliance_results := st.compliance_results ++
          [{ product_id := product.id, product_name := product.name,
             compliance := compliance_result }] }
    else st
  let output_path := save_output env.campaign_root product.id ratio.name
  { st with
    saved := st.saved ++
      [{ product_id := product.id, aspect_ratio := ratio.name, path := output_path }],
    generated_assets := st.generated_assets ++
      [{ product_id := product.id, product_name := product.name,
         aspect_ratio := ratio.name, file_path := output_path,
         source := source, prompt_used := prompt_used }] }

/-- One iteration of the product loop of `CreativePipeline.run`: resolve the
hero image (a failure aborts the run, keeping the state accumulated so far),
then run the aspect-ratio loop. -/
def process_product {Img : Type} (env : PipelineEnv Img) (brief : CampaignBrief)
    (ratios : List AspectRatio) (st : RunState) (product : Product) :
    Except (String × RunState) RunState :=
  match resolve_hero env brief product with
  | .error e => .error (e, st)
  | .ok (hero_image, source, prompt_used) =>
    .ok (ratios.foldl (process_ratio env brief product hero_image source prompt_used) st)

/-- The product loop of `CreativePipeline.run` (src/pipeline.py lines
127-224), threading the accumulated state; the first failing product aborts
the whole loop. -/
def process_products {Img : Type} (env : PipelineEnv Img) (brief : CampaignBrief)
    (ratios : List AspectRatio) : List Product → RunState →
    Except (String × RunState) RunState
  | [], st => .ok st
  | product :: rest, st =>
    match process_product env brief ratios st product with
    | .error es => .error es
    | .ok st2 => process_products env brief ratios rest st2

/-- `CreativePipeline._generate_report` (src/pipeline.py lines 253-303):
statistics over the flat asset list, then one products entry per brief
product, grouping the assets by `product_id`, taking `source` and
`prompt_used` from the product's first asset (falling back to
`"unknown"`/`None` when it has none) and joining in the first compliance
entry with its id. -/
def generate_report (brief : CampaignBrief) (original_message : String)
    (st : RunState) : Report :=
  { campaign_id := brief.campaign_id,
    localization :=
      { enabled := localizationEnabled brief,
        target_language := brief.target_market.language,
        original_message := original_message,
        localized_message :=
          if localizationEnabled brief then some brief.campaign_message else none },
    products := brief.products.map (fun product =>
      let product_assets :=
        st.generated_assets.filter (fun a => a.product_id = product.id)
      let compliance_data :=
        (st.compliance_results.find? (fun r => r.product_id = product.id)).map
          (fun r => r.compliance)
      { product_id := product.id,
        product_name := product.name,
        source :=
          match product_assets.head? with
          | some a => a.source
          | none => "unknown",
        prompt_used :=
          match product_assets.head? with
          | some a => a.prompt_used
          | none => none,
        compliance := compliance_data,
        variants := product_assets.map (fun a =>
          { aspect_ratio := a.aspect_ratio, file_path := a.file_path }) }),
    statistics :=
      { total_products := brief.products.length,
        total_assets := st.generated_assets.length,
        assets_generated :=
          (st.generated_assets.filter (fun a => a.source = "generated")).length,
        assets_reused :=
          (st.generated_assets.filter (fun a => a.source = "existing")).length,
        compliance_passed :=
          (st.compliance_results.filter (fun r => r.compliance.overall_passed)).length,
        compliance_total := st.compliance_results.length } }

/-- `CreativePipeline.run` (src/pipeline.py lines 69-251) for an
already-parsed brief: validation (a failed validation raises), moderation in
non-strict mode, localization, the product/ratio loops, then the report.
The run's configured ratio list is `default_aspect_ratios` in the code
(`self.config` is not overridable); it is a parameter here so that the
gating on its content is statable. -/
def run {Img : Type} (env : PipelineEnv Img) (brief0 : CampaignBrief)
    (ratios : List AspectRatio) : RunOutcome :=
  let v := validate_brief brief0
  if v.1 = false then
    { result := .error ("Invalid brief: " ++ String.intercalate "; " v.2),
      state := RunState.empty }
  else
    match pipeline_moderation brief0.campaign_message with
    | .error e => { result := .error e, state := RunState.empty }
    | .ok _ =>
      let original_message := brief0.campaign_message
      let brief := localize env brief0
      match process_products env brief ratios brief.products RunState.empty with
      | .error (e, st) => { result := .error e, state := st }
      | .ok st =>
        { result := .ok (generate_report brief original_message st), state := st }

/-! ## General helper lemmas -/

theorem head?_append_some {α : Type} {l1 : List α} (l2 : List α) {c : α}
    (h : l1.head? = some c) : (l1 ++ l2).head? = some c := by
  cases l1 with
  | nil => simp at h
  | cons x xs => simpa using h

theorem string_append_head? {a : String} (x : String) {c : Char}
    (h : a.data.head? = some c) : (a ++ x).data.head? = some c := by
  rw [String.data_append]
  exact head?_append_some _ h

theorem string_ne_of_data_head_ne {s t : String} (c d : Char)
    (hs : s.data.head? = some c) (ht : t.data.head? = some d) (hcd : c ≠ d) :
    s ≠ t :=
  fun h => hcd (Option.some.inj ((h ▸ hs).symm.trans ht))

theorem intercalate_go_prefix (s : String) : ∀ (l : List String) (acc : String),
    ∃ t, String.intercalate.go acc s l = acc ++ t
  | [], acc => ⟨"", (String.append_empty acc).symm⟩
  | a :: as, acc => by
    obtain ⟨t, ht⟩ := intercalate_go_prefix s as (acc ++ s ++ a)
    refine ⟨s ++ (a ++ t), ?_⟩
    show String.intercalate.go (acc ++ s ++ a) s as = acc ++ (s ++ (a ++ t))
    rw [ht, String.append_assoc, String.append_assoc]

theorem intercalate_cons_head? {x : String} (s : String) (l : List String) {c : Char}
    (h : x.data.head? = some c) :
    (String.intercalate s (x :: l)).data.head? = some c := by
  obtain ⟨t, ht⟩ := intercalate_go_prefix s l x
  show (String.intercalate.go x s l).data.head? = some c
  rw [ht]
  exact string_append_head? t h

/-! ## Claim C6 — brief validation -/

/-- The warning text for too few products (src/brief_parser.py line 53). -/
def fewProductsWarning (n : Nat) : String :=
  "Brief requires at least 2 products, found " ++ toString n

/-- The aggregated warning text for products without hero images
(src/brief_parser.py line 58). -/
def missingImagesWarning (names : List String) : String :=
  "Products without hero images (will generate): " ++ String.intercalate ", " names

/-- C6: `validate_brief` returns `is_valid = true` iff the brief has at least
2 products; with 0 or 1 products the warnings name the actual product count;
products missing a hero image produce exactly one aggregated warning listing
all their names, and a missing brand-elements block produces a warning —
neither of which affects `is_valid`. -/
theorem count_eq_one_middle {α : Type} [DecidableEq α] (l1 l2 : List α) (a : α)
    (h1 : a ∉ l1) (h2 : a ∉ l2) : (l1 ++ a :: l2).count a = 1 := by
  rw [List.count_append, List.count_cons_self, List.count_eq_zero.mpr h1,
    List.count_eq_zero.mpr h2]

theorem c6_validate_brief (brief : CampaignBrief) :
    ((validate_brief brief).1 = true ↔ 2 ≤ brief.products.length)
    ∧ (brief.products.length < 2 →
        fewProductsWarning brief.products.length ∈ (validate_brief brief).2)
    ∧ ((brief.products.filter (fun p => optStrFalsy p.hero_image)).map
          (fun p => p.name) ≠ [] →
        (validate_brief brief).2.count
          (missingImagesWarning
            ((brief.products.filter (fun p => optStrFalsy p.hero_image)).map
              (fun p => p.name))) = 1)
    ∧ (brief.brand_elements = none →
        "No brand elements specified" ∈ (validate_brief brief).2) := by
  have hagg_head : ∀ names : List String,
      (missingImagesWarning names).data.head? = some 'P' := by
    intro names
    exact string_append_head? _ (by decide)
  refine ⟨by simp [validate_brief], ?_, ?_, ?_⟩
  · intro h
    simp [validate_brief, fewProductsWarning, h]
  · intro hmiss
    have hne1 : missingImagesWarning
        ((brief.products.filter (fun p => optStrFalsy p.hero_image)).map (fun p => p.name))
        ≠ fewProductsWarning brief.products.length :=
      string_ne_of_data_head_ne 'P' 'B' (hagg_head _)
        (string_append_head? _ (by decide)) (by decide)
    have hne2 : missingImagesWarning
        ((brief.products.filter (fun p => optStrFalsy p.hero_image)).map (fun p => p.name))
        ≠ "No brand elements specified" :=
      string_ne_of_data_head_ne 'P' 'N' (hagg_head _) (by decide) (by decide)
    simp only [validate_brief, missingImagesWarning]
    rw [if_pos hmiss, List.append_assoc, List.singleton_append]
    apply count_eq_one_middle
    · by_cases h2 : brief.products.length < 2 <;> simp [h2]
      exact hne1
    · by_cases h3 : brief.brand_elements.isNone <;> simp [h3]
      exact hne2
  · intro h
    simp [validate_brief, h]

/-- C6 witness: the theorem applied to a concrete invalid brief with one
product, no hero image and no brand elements, every hypothesis discharged. -/
theorem c6_validate_brief_witness :
    ((validate_brief
        { campaign_id := "c", products := [{ id := "p1", name := "Solo", description := "d" }],
          target_market := { region := "US", language := "en" },
          target_audience := "a", campaign_message := "m" }).1 = true ↔
      2 ≤ (1 : Nat))
    ∧ fewProductsWarning 1 ∈ (validate_brief
        { campaign_id := "c", products := [{ id := "p1", name := "Solo", description := "d" }],
          target_market := { region := "US", language := "en" },
          target_audience := "a", campaign_message := "m" }).2
    ∧ (validate_brief
        { campaign_id := "c", products := [{ id := "p1", name := "Solo", description := "d" }],
          target_market := { region := "US", language := "en" },
          target_audience := "a", campaign_message := "m" }).2.count
        (missingImagesWarning ["Solo"]) = 1
    ∧ "No brand elements specified" ∈ (validate_brief
        { campaign_id := "c", products := [{ id := "p1", name := "Solo", description := "d" }],
          target_market := { region := "US", language := "en" },
          target_audience := "a", campaign_message := "m" }).2 := by
  obtain ⟨h1, h2, h3, h4⟩ := c6_validate_brief
    { campaign_id := "c", products := [{ id := "p1", name := "Solo", description := "d" }],
      target_market := { region := "US", language := "en" },
      target_audience := "a", campaign_message := "m" }
  exact ⟨h1, h2 (by decide), h3 (by decide), h4 rfl⟩

/-! ## Claim C7 — asset resolution -/

/-- C7: `find_asset` returns `none` for an absent or empty reference; it is a
deterministic function of the reference and the directory state; and when both
the campaign-root-relative path and the `assets/` fallback exist, the
campaign-root-relative match is returned. -/
theorem c7_find_asset (fs : FileSystem) (campaign_root : String) :
    find_asset fs campaign_root none = none
    ∧ find_asset fs campaign_root (some "") = none
    ∧ (∀ r1 r2 : Option String, r1 = r2 →
        find_asset fs campaign_root r1 = find_asset fs campaign_root r2)
    ∧ (∀ ref : String, ref ≠ "" →
        fs.pathExists (pathJoin campaign_root ref) = true →
        fs.pathExists (pathJoin (pathJoin campaign_root "assets") (pathName ref)) = true →
        find_asset fs campaign_root (some ref) = some (pathJoin campaign_root ref)) := by
  refine ⟨rfl, by simp [find_asset, optStrFalsy], fun r1 r2 h => by rw [h], ?_⟩
  intro ref href hroot _hassets
  simp [find_asset, optStrFalsy, href, hroot]

/-- C7 witness: a directory state where both candidate locations of the
reference `pics/hero.png` exist; the root-relative one wins. -/
theorem c7_find_asset_witness :
    find_asset ⟨["root/pics/hero.png", "root/assets/hero.png"]⟩ "root" none = none
    ∧ find_asset ⟨["root/pics/hero.png", "root/assets/hero.png"]⟩ "root" (some "") = none
    ∧ find_asset ⟨["root/pics/hero.png", "root/assets/hero.png"]⟩ "root"
        (some "pics/hero.png") = some "root/pics/hero.png" := by
  obtain ⟨h1, h2, _h3, h4⟩ :=
    c7_find_asset ⟨["root/pics/hero.png", "root/assets/hero.png"]⟩ "root"
  exact ⟨h1, h2, h4 "pics/hero.png" (by decide) (by decide) (by decide)⟩

/-! ## Claim C9 — localization laws -/

/-- C9: translating a text into its own source language is the identity, for
every language code and every backend; and whenever the translation backend
fails, `translate_text` returns the original text rather than raising. -/
theorem c9_translate_text (translator : String → String → String → Option String) :
    (∀ text lang : String, translate_text translator text lang lang = text)
    ∧ (∀ text target source : String, translator source target text = none →
        translate_text translator text target source = text) := by
  constructor
  · intro text lang
    simp [translate_text]
  · intro text target source hfail
    by_cases h : target = source
    · simp [translate_text, h]
    · simp [translate_text, h, hfail]

/-- C9 witness: a backend that always fails, applied at concrete texts. -/
theorem c9_translate_text_witness :
    translate_text (fun _ _ _ => none) "Hello" "ja" "ja" = "Hello"
    ∧ translate_text (fun _ _ _ => none) "Hello" "es" "en" = "Hello" := by
  obtain ⟨h1, h2⟩ := c9_translate_text (fun _ _ _ => none)
  exact ⟨h1 "Hello" "ja", h2 "Hello" "es" "en" rfl⟩

/-! ## Claim C4 — prompt construction -/

/-- The prompt as claim C4 describes it, written from the claim's words for
comparison with `build_prompt`: the color-accent instruction line, when a
brand color is present, comes after all the fixed quality/style boilerplate. -/
def build_prompt_claimed (product_name product_description target_audience : String)
    (brand_color : Option String) : String :=
  String.intercalate " "
    (["Professional product photography of " ++ product_name ++ ".",
      "Product details: " ++ product_description ++ ".",
      "Style: Clean, modern, appealing to " ++ target_audience ++ ".",
      "High quality, well-lit, studio setting.",
      "Commercial photography, 4K quality."] ++
      (match brand_color with
       | some c => ["Incorporate " ++ c ++ " color accent."]
       | none => []))

/-- C4 counterexample: at a concrete input with a brand color, the prompt the
code builds is not the prompt the claim describes — the code puts the
color-accent line before the final "Commercial photography, 4K quality."
boilerplate, not after all of it. -/
theorem c4_counterexample :
    build_prompt "Widget" "A widget" "adults" (some "#FF0000") ≠
      build_prompt_claimed "Widget" "A widget" "adults" (some "#FF0000") := by
  decide

/-- C4 (amended): `build_prompt` concatenates, in fixed order, the product
framing line, the description line, the audience style line, the
"High quality, well-lit, studio setting." boilerplate, then — only when a
truthy (non-empty) brand color is present; Python's `if brand_color:` skips
a missing or empty one — the color-accent instruction line, and finally the
"Commercial photography, 4K quality." boilerplate; the parts list contains a
color-accent line iff a non-empty brand color was supplied. -/
theorem c4_build_prompt (product_name product_description target_audience : String) :
    (∀ c : String, c ≠ "" →
      build_prompt product_name product_description target_audience (some c) =
      String.intercalate " "
        ["Professional product photography of " ++ product_name ++ ".",
         "Product details: " ++ product_description ++ ".",
         "Style: Clean, modern, appealing to " ++ target_audience ++ ".",
         "High quality, well-lit, studio setting.",
         "Incorporate " ++ c ++ " color accent.",
         "Commercial photography, 4K quality."])
    ∧ (build_prompt product_name product_description target_audience none =
      String.intercalate " "
        ["Professional product photography of " ++ product_name ++ ".",
         "Product details: " ++ product_description ++ ".",
         "Style: Clean, modern, appealing to " ++ target_audience ++ ".",
         "High quality, well-lit, studio setting.",
         "Commercial photography, 4K quality."])
    ∧ (build_prompt product_name product_description target_audience (some "") =
      String.intercalate " "
        ["Professional product photography of " ++ product_name ++ ".",
         "Product details: " ++ product_description ++ ".",
         "Style: Clean, modern, appealing to " ++ target_audience ++ ".",
         "High quality, well-lit, studio setting.",
         "Commercial photography, 4K quality."])
    ∧ (∀ c : String, c ≠ "" → ("Incorporate " ++ c ++ " color accent.") ∈
        prompt_parts product_name product_description target_audience (some c))
    ∧ (∀ c : String, ("Incorporate " ++ c ++ " color accent.") ∉
        prompt_parts product_name product_description target_audience none)
    ∧ (∀ c : String, ("Incorporate " ++ c ++ " color accent.") ∉
        prompt_parts product_name product_description target_audience (some "")) := by
  have hcolor_head : ∀ c : String,
      ("Incorporate " ++ c ++ " color accent.").data.head? = some 'I' := by
    intro c
    exact string_append_head? _ (string_append_head? _ (by decide))
  have hparts_some : ∀ c : String, c ≠ "" →
      prompt_parts product_name product_description target_audience (some c) =
      ["Professional product photography of " ++ product_name ++ ".",
       "Product details: " ++ product_description ++ ".",
       "Style: Clean, modern, appealing to " ++ target_audience ++ ".",
       "High quality, well-lit, studio setting.",
       "Incorporate " ++ c ++ " color accent.",
       "Commercial photography, 4K quality."] := by
    intro c hc
    simp [prompt_parts, optStrFalsy, hc]
  have hparts_none : prompt_parts product_name product_description target_audience none =
      ["Professional product photography of " ++ product_name ++ ".",
       "Product details: " ++ product_description ++ ".",
       "Style: Clean, modern, appealing to " ++ target_audience ++ ".",
       "High quality, well-lit, studio setting.",
       "Commercial photography, 4K quality."] := rfl
  have hparts_empty : prompt_parts product_name product_description target_audience
      (some "") =
      ["Professional product photography of " ++ product_name ++ ".",
       "Product details: " ++ product_description ++ ".",
       "Style: Clean, modern, appealing to " ++ target_audience ++ ".",
       "High quality, well-lit, studio setting.",
       "Commercial photography, 4K quality."] := rfl
  have hnotmem : ∀ c : String, ("Incorporate " ++ c ++ " color accent.") ∉
      (["Professional product photography of " ++ product_name ++ ".",
        "Product details: " ++ product_description ++ ".",
        "Style: Clean, modern, appealing to " ++ target_audience ++ ".",
        "High quality, well-lit, studio setting.",
        "Commercial photography, 4K quality."] : List String) := by
    intro c
    have hp1 : ("Professional product photography of " ++ product_name ++ ".").data.head?
        = some 'P' :=
      string_append_head? _ (string_append_head? _ (by decide))
    have hp2 : ("Product details: " ++ product_description ++ ".").data.head? = some 'P' :=
      string_append_head? _ (string_append_head? _ (by decide))
    have hp3 : ("Style: Clean, modern, appealing to " ++ target_audience ++ ".").data.head?
        = some 'S' :=
      string_append_head? _ (string_append_head? _ (by decide))
    intro hmem
    simp only [List.mem_cons, List.not_mem_nil, or_false] at hmem
    rcases hmem with h | h | h | h | h
    · exact string_ne_of_data_head_ne 'I' 'P' (hcolor_head c) hp1 (by decide) h
    · exact string_ne_of_data_head_ne 'I' 'P' (hcolor_head c) hp2 (by decide) h
    · exact string_ne_of_data_head_ne 'I' 'S' (hcolor_head c) hp3 (by decide) h
    · exact string_ne_of_data_head_ne 'I' 'H' (hcolor_head c) (by decide) (by decide) h
    · exact string_ne_of_data_head_ne 'I' 'C' (hcolor_head c) (by decide) (by decide) h
  refine ⟨?_, rfl, rfl, ?_, ?_, ?_⟩
  · intro c hc
    unfold build_prompt
    rw [hparts_some c hc]
  · intro c hc
    rw [hparts_some c hc]
    simp
  · intro c
    rw [hparts_none]
    exact hnotmem c
  · intro c
    rw [hparts_empty]
    exact hnotmem c

/-- C4 witness: the amended theorem applied at the non-empty brand color
`#FF0000` (accent line present) and at an empty brand color, which Python
truthiness skips (no accent line; the prompt equals the no-color one). -/
theorem c4_build_prompt_witness :
    (("Incorporate " ++ "#FF0000" ++ " color accent.") ∈
      prompt_parts "Widget" "A widget" "adults" (some "#FF0000"))
    ∧ (("Incorporate " ++ "" ++ " color accent.") ∉
      prompt_parts "Widget" "A widget" "adults" (some ""))
    ∧ build_prompt "Widget" "A widget" "adults" (some "") =
        build_prompt "Widget" "A widget" "adults" none := by
  obtain ⟨h1, h2, h3, h4, h5, h6⟩ := c4_build_prompt "Widget" "A widget" "adults"
  exact ⟨h4 "#FF0000" (by decide), h6 "", by rw [h3, h2]⟩

/-! ## Claim C5 — color-presence compliance check -/

/-- C5 counterexample: with brand color `#787878` (all channels 120), the
10000-pixel sample of an image filled entirely with the exact complementary
color (135, 135, 135) is within the fixed tolerance 30 on every channel, so
the check passes with score 100 — not "fails with score 50" as claimed. -/
theorem c5_counterexample :
    (check_color_presence (some "#787878")
        (List.replicate 10000 [135, 135, 135])).passed = true
    ∧ (check_color_presence (some "#787878")
        (List.replicate 10000 [135, 135, 135])).score = 100 := by
  constructor <;> decide

/-- C5 (amended): with no brand color the check passes with score 100; with a
brand color parsing to RGB `(r, g, b)`, a nonempty image filled entirely with
that exact color passes with score 100, while an image filled entirely with
the exact complementary color fails with score 50 provided some channel is at
distance at least the tolerance 30 from its negation (for brand channels all
within 15 of 127.5 the complement is inside tolerance and the check passes,
see the counterexample); an internal error — an unparsable brand color — makes
the check fail with score 0. -/
theorem c5_check_color_presence :
    (∀ pixels, (check_color_presence none pixels).passed = true
      ∧ (check_color_presence none pixels).score = 100)
    ∧ (∀ (color : String) (r g b n : Nat), hex_to_rgb color = some (r, g, b) → 0 < n →
        (check_color_presence (some color) (List.replicate n [r, g, b])).passed = true
        ∧ (check_color_presence (some color) (List.replicate n [r, g, b])).score = 100)
    ∧ (∀ (color : String) (r g b n : Nat), hex_to_rgb color = some (r, g, b) →
        (30 ≤ Nat.dist r (255 - r) ∨ 30 ≤ Nat.dist g (255 - g) ∨ 30 ≤ Nat.dist b (255 - b)) →
        (check_color_presence (some color)
          (List.replicate n [255 - r, 255 - g, 255 - b])).passed = false
        ∧ (check_color_presence (some color)
          (List.replicate n [255 - r, 255 - g, 255 - b])).score = 50)
    ∧ (∀ (color : String) pixels, hex_to_rgb color = none → color ≠ "" →
        (check_color_presence (some color) pixels).passed = false
        ∧ (check_color_presence (some color) pixels).score = 0) := by
  have hnf : ∀ (color : String) (v : Nat × Nat × Nat), hex_to_rgb color = some v →
      color ≠ "" := by
    intro color v hx hc
    have h0 : hex_to_rgb "" = none := by decide
    rw [hc, h0] at hx
    exact Option.noConfusion hx
  refine ⟨fun pixels => ⟨rfl, rfl⟩, ?_, ?_, ?_⟩
  · intro color r g b n hx hn
    have hcolor_ne : color ≠ "" := hnf color _ hx
    have hmatch : pixelMatches (r, g, b) 30 [r, g, b] = true := by
      simp [pixelMatches, Nat.dist_self]
    have hany : (List.replicate n [r, g, b]).any (pixelMatches (r, g, b) 30) = true := by
      rw [List.any_eq_true]
      exact ⟨[r, g, b], List.mem_replicate.mpr ⟨Nat.pos_iff_ne_zero.mp hn, rfl⟩, hmatch⟩
    constructor <;> simp [check_color_presence, optStrFalsy, hcolor_ne, hx, hany]
  · intro color r g b n hx hdist
    have hcolor_ne : color ≠ "" := hnf color _ hx
    have hnomatch : pixelMatches (r, g, b) 30 [255 - r, 255 - g, 255 - b] = false := by
      simp only [pixelMatches]
      rcases hdist with h | h | h
      · have hlt : ¬ Nat.dist (255 - r) r < 30 := by
          rw [Nat.dist_comm]
          omega
        simp [hlt]
      · have hlt : ¬ Nat.dist (255 - g) g < 30 := by
          rw [Nat.dist_comm]
          omega
        simp [hlt]
      · have hlt : ¬ Nat.dist (255 - b) b < 30 := by
          rw [Nat.dist_comm]
          omega
        simp [hlt]
    have hany : (List.replicate n [255 - r, 255 - g, 255 - b]).any
        (pixelMatches (r, g, b) 30) = false := by
      rw [Bool.eq_false_iff]
      intro hcontra
      rw [List.any_eq_true] at hcontra
      obtain ⟨p, hp, hpm⟩ := hcontra
      rw [List.eq_of_mem_replicate hp, hnomatch] at hpm
      exact Bool.false_ne_true hpm
    constructor <;> simp [check_color_presence, optStrFalsy, hcolor_ne, hx, hany]
  · intro color pixels hx hcne
    constructor <;> simp [check_color_presence, optStrFalsy, hcne, hx]

/-- C5 witness: the amended theorem applied at brand color `#FF0000`
(a pure-brand-color image passes with 100; the complementary fill, channel
255 at distance 255 from its negation, fails with 50) and at the unparsable
brand color `not-a-color` (score 0). -/
theorem c5_check_color_presence_witness :
    ((check_color_presence none [[1, 2, 3]]).passed = true
      ∧ (check_color_presence none [[1, 2, 3]]).score = 100)
    ∧ ((check_color_presence (some "#FF0000") (List.replicate 1 [255, 0, 0])).passed = true
      ∧ (check_color_presence (some "#FF0000") (List.replicate 1 [255, 0, 0])).score = 100)
    ∧ ((check_color_presence (some "#FF0000")
          (List.replicate 1 [255 - 255, 255 - 0, 255 - 0])).passed = false
      ∧ (check_color_presence (some "#FF0000")
          (List.replicate 1 [255 - 255, 255 - 0, 255 - 0])).score = 50)
    ∧ ((check_color_presence (some "not-a-color") [[0, 0, 0]]).passed = false
      ∧ (check_color_presence (some "not-a-color") [[0, 0, 0]]).score = 0) := by
  obtain ⟨h1, h2, h3, h4⟩ := c5_check_color_presence
  exact ⟨h1 [[1, 2, 3]],
    h2 "#FF0000" 255 0 0 1 (by decide) (by decide),
    h3 "#FF0000" 255 0 0 1 (by decide) (Or.inl (by decide)),
    h4 "not-a-color" [[0, 0, 0]] (by decide) (by decide)⟩

/-! ## Claim C8 — moderation gating -/

/-- The moderation step of the orchestrator never raises: `strict` is left at
`False`, so the verdict is reported and the run continues. -/
theorem pipeline_moderation_ok (message : String) :
    pipeline_moderation message =
      .ok (moderate_text default_prohibited_terms message).is_safe := by
  unfold pipeline_moderation
  cases hs : (moderate_text default_prohibited_terms message).is_safe <;>
    simp [moderate_campaign_message, hs]

/-- C8: `moderate_campaign_message` raises (an `.error` listing the offending
terms) iff `strict` is true and some prohibited term occurs case-insensitively
as a substring of the message (the pluggable AI check never flags); with
`strict = false` it returns the verdict without raising; and the
orchestrator's own call (`pipeline_moderation`, src/pipeline.py line 101) is
non-strict, so it never raises. -/
theorem c8_moderate_campaign_message (prohibited_terms : List String)
    (message : String) (strict : Bool) :
    ((∃ e, moderate_campaign_message prohibited_terms message strict = .error e) ↔
      (strict = true ∧ ∃ term ∈ prohibited_terms,
        strContainsSub (strLower message) (strLower term) = true))
    ∧ moderate_campaign_message prohibited_terms message false =
        .ok (moderate_text prohibited_terms message).is_safe
    ∧ (∃ b, pipeline_moderation message = .ok b) := by
  have hsafe_iff : (moderate_text prohibited_terms message).is_safe = false ↔
      ∃ term ∈ prohibited_terms,
        strContainsSub (strLower message) (strLower term) = true := by
    simp [moderate_text, ModerationResult.is_safe, ai_moderation_check,
      check_prohibited_terms, List.isEmpty_eq_false_iff_exists_mem, List.mem_filter]
  refine ⟨⟨?_, ?_⟩, ?_, ⟨_, pipeline_moderation_ok message⟩⟩
  · rintro ⟨e, he⟩
    cases hs : (moderate_text prohibited_terms message).is_safe with
    | true => rw [moderate_campaign_message, hs] at he; simp at he
    | false =>
      cases strict with
      | false => rw [moderate_campaign_message, hs] at he; simp at he
      | true => exact ⟨rfl, hsafe_iff.mp hs⟩
  · rintro ⟨hstrict, hterm⟩
    subst hstrict
    have hsF := hsafe_iff.mpr hterm
    rw [moderate_campaign_message, hsF]
    exact ⟨_, rfl⟩
  · cases hs : (moderate_text prohibited_terms message).is_safe <;>
      simp [moderate_campaign_message, hs]

/-! ## Pipeline run characterization -/

/-- The `GeneratedAsset` record the ratio loop appends for one
(product, ratio) pair. -/
def mkAsset (campaign_root : String) (product : Product) (ratio : AspectRatio)
    (source : String) (prompt_used : Option String) : GeneratedAsset :=
  { product_id := product.id, product_name := product.name,
    aspect_ratio := ratio.name,
    file_path := save_output campaign_root product.id ratio.name,
    source := source, prompt_used := prompt_used }

/-- The save event the ratio loop performs for one (product, ratio) pair. -/
def mkSave (campaign_root : String) (product : Product) (ratio : AspectRatio) :
    SaveEvent :=
  { product_id := product.id, aspect_ratio := ratio.name,
    path := save_output campaign_root product.id ratio.name }

/-- The compliance entry the ratio loop appends on a square ratio. -/
def mkCompliance {Img : Type} (env : PipelineEnv Img) (brief : CampaignBrief)
    (product : Product) (hero_image : Img) (ratio : AspectRatio) : ComplianceEntry :=
  { product_id := product.id, product_name := product.name,
    compliance := run_brand_checks (brief.brand_elements.map (fun be => be.primary_color))
      (env.sample_pixels (render_variant env brief hero_image ratio)) }

theorem process_ratio_eq {Img : Type} (env : PipelineEnv Img) (brief : CampaignBrief)
    (product : Product) (hero_image : Img) (source : String) (prompt_used : Option String)
    (st : RunState) (ratio : AspectRatio) :
    process_ratio env brief product hero_image source prompt_used st ratio =
      { generated_assets := st.generated_assets ++
          [mkAsset env.campaign_root product ratio source prompt_used],
        compliance_results := st.compliance_results ++
          (if ratio.name = "square" then [mkCompliance env brief product hero_image ratio]
           else []),
        saved := st.saved ++ [mkSave env.campaign_root product ratio] } := by
  by_cases hsq : ratio.name = "square" <;>
    simp [process_ratio, hsq, mkAsset, mkSave, mkCompliance]

theorem foldl_process_ratio {Img : Type} (env : PipelineEnv Img) (brief : CampaignBrief)
    (product : Product) (hero_image : Img) (source : String) (prompt_used : Option String) :
    ∀ (ratios : List AspectRatio) (st : RunState),
    ratios.foldl (process_ratio env brief product hero_image source prompt_used) st =
      { generated_assets := st.generated_assets ++
          ratios.map (fun r => mkAsset env.campaign_root product r source prompt_used),
        compliance_results := st.compliance_results ++
          (ratios.filter (fun r => r.name = "square")).map
            (mkCompliance env brief product hero_image),
        saved := st.saved ++ ratios.map (mkSave env.campaign_root product) }
  | [], st => by simp
  | r :: rs, st => by
    rw [List.foldl_cons, process_ratio_eq,
      foldl_process_ratio env brief product hero_image source prompt_used rs]
    by_cases hsq : r.name = "square" <;> simp [hsq, List.filter_cons]

/-- The assets one product contributes to a completed run. -/
def productAssets {Img : Type} (env : PipelineEnv Img) (brief : CampaignBrief)
    (ratios : List AspectRatio) (product : Product) : List GeneratedAsset :=
  match resolve_hero env brief product with
  | .ok (_, source, prompt_used) =>
    ratios.map (fun r => mkAsset env.campaign_root product r source prompt_used)
  | .error _ => []

/-- The compliance entries one product contributes to a completed run. -/
def productCompliance {Img : Type} (env : PipelineEnv Img) (brief : CampaignBrief)
    (ratios : List AspectRatio) (product : Product) : List ComplianceEntry :=
  match resolve_hero env brief product with
  | .ok (hero_image, _, _) =>
    (ratios.filter (fun r => r.name = "square")).map
      (mkCompliance env brief product hero_image)
  | .error _ => []

/-- The save events one product contributes to a completed run. -/
def productSaves {Img : Type} (env : PipelineEnv Img) (brief : CampaignBrief)
    (ratios : List AspectRatio) (product : Product) : List SaveEvent :=
  match resolve_hero env brief product with
  | .ok _ => ratios.map (mkSave env.campaign_root product)
  | .error _ => []

theorem process_product_ok {Img : Type} (env : PipelineEnv Img) (brief : CampaignBrief)
    (ratios : List AspectRatio) (st : RunState) (product : Product)
    (h : (resolve_hero env brief product).isOk = true) :
    process_product env brief ratios st product = .ok
      { generated_assets := st.generated_assets ++ productAssets env brief ratios product,
        compliance_results := st.compliance_results ++
          productCompliance env brief ratios product,
        saved := st.saved ++ productSaves env brief ratios product } := by
  cases hres : resolve_hero env brief product with
  | error e => rw [hres] at h; simp [Except.isOk, Except.toBool] at h
  | ok v =>
    obtain ⟨hero_image, source, prompt_used⟩ := v
    simp [process_product, hres, foldl_process_ratio, productAssets,
      productCompliance, productSaves]

theorem process_products_ok {Img : Type} (env : PipelineEnv Img) (brief : CampaignBrief)
    (ratios : List AspectRatio) (ps : List Product) :
    ∀ (st : RunState), (∀ p ∈ ps, (resolve_hero env brief p).isOk = true) →
    process_products env brief ratios ps st = .ok
      { generated_assets := st.generated_assets ++
          ps.flatMap (productAssets env brief ratios),
        compliance_results := st.compliance_results ++
          ps.flatMap (productCompliance env brief ratios),
        saved := st.saved ++ ps.flatMap (productSaves env brief ratios) } := by
  induction ps with
  | nil => intro st _; simp [process_products]
  | cons p ps ih =>
    intro st h
    simp only [process_products,
      process_product_ok env brief ratios st p (h p (List.mem_cons_self p ps))]
    rw [ih _ (fun q hq => h q (List.mem_cons_of_mem p hq))]
    simp [List.flatMap_cons, List.append_assoc]

/-- The accumulated state of a run in which every product resolved. -/
def okState {Img : Type} (env : PipelineEnv Img) (brief : CampaignBrief)
    (ratios : List AspectRatio) : RunState :=
  { generated_assets := brief.products.flatMap (productAssets env brief ratios),
    compliance_results := brief.products.flatMap (productCompliance env brief ratios),
    saved := brief.products.flatMap (productSaves env brief ratios) }

theorem localize_products {Img : Type} (env : PipelineEnv Img) (brief : CampaignBrief) :
    (localize env brief).products = brief.products := by
  by_cases h : localizationEnabled brief = true <;> simp [localize, h]

theorem localize_not_enabled {Img : Type} (env : PipelineEnv Img) (brief : CampaignBrief)
    (h : localizationEnabled brief = false) : localize env brief = brief := by
  simp [localize, h]

theorem run_ok {Img : Type} (env : PipelineEnv Img) (brief : CampaignBrief)
    (ratios : List AspectRatio)
    (hval : 2 ≤ brief.products.length)
    (hsucc : ∀ p ∈ brief.products, (resolve_hero env (localize env brief) p).isOk = true) :
    run env brief ratios =
      { result := .ok (generate_report (localize env brief) brief.campaign_message
          (okState env (localize env brief) ratios)),
        state := okState env (localize env brief) ratios } := by
  have hv : (validate_brief brief).1 = true := by simp [validate_brief, hval]
  have hsucc' : ∀ p ∈ (localize env brief).products,
      (resolve_hero env (localize env brief) p).isOk = true := by
    rw [localize_products]; exact hsucc
  simp only [run, hv, pipeline_moderation_ok,
    process_products_ok env (localize env brief) ratios (localize env brief).products
      RunState.empty hsucc']
  simp [RunState.empty, okState, localize_products]

/-! ## Claim C3 — bounded retry -/

theorem retryLoop_all_fail {Img : Type} (gen : Nat → Except String (Img × String))
    (m : Nat) (errf : Nat → String) :
    ∀ (remaining attempt : Nat) (last : Option String),
    remaining + attempt = m →
    (∀ k, attempt ≤ k → k < m → gen k = .error (errf k)) →
    retryLoop gen m remaining attempt last =
      .error ("Failed after " ++ toString m ++ " attempts: " ++
        showLastError (if remaining = 0 then last else some (errf (m - 1))))
  | 0, attempt, last, hsum, hfail => by simp [retryLoop]
  | remaining + 1, attempt, last, hsum, hfail => by
    have hattempt : attempt < m := by omega
    simp only [retryLoop, hfail attempt le_rfl hattempt]
    rw [retryLoop_all_fail gen m errf remaining (attempt + 1) (some (errf attempt))
      (by omega) (fun k hk1 hk2 => hfail k (by omega) hk2)]
    by_cases h0 : remaining = 0
    · have hlast : attempt = m - 1 := by omega
      simp [h0, hlast]
    · simp [h0]

theorem retryLoop_congr {Img : Type} (gen1 gen2 : Nat → Except String (Img × String))
    (m : Nat) :
    ∀ (remaining attempt : Nat) (last : Option String),
    remaining + attempt = m →
    (∀ k, attempt ≤ k → k < m → gen1 k = gen2 k) →
    retryLoop gen1 m remaining attempt last = retryLoop gen2 m remaining attempt last
  | 0, _, _, _, _ => by simp [retryLoop]
  | remaining + 1, attempt, last, hsum, hagree => by
    have hattempt : attempt < m := by omega
    simp only [retryLoop]
    rw [hagree attempt le_rfl hattempt]
    cases gen2 attempt with
    | ok r => rfl
    | error e =>
      exact retryLoop_congr gen1 gen2 m remaining (attempt + 1) (some e) (by omega)
        (fun k hk1 hk2 => hagree k (by omega) hk2)

/-- A save event of one product's contribution carries that product's id, and
exists only when the product resolved. -/
theorem mem_productSaves_id {Img : Type} {env : PipelineEnv Img} {brief : CampaignBrief}
    {ratios : List AspectRatio} {p : Product} {ev : SaveEvent}
    (h : ev ∈ productSaves env brief ratios p) :
    ev.product_id = p.id ∧ (resolve_hero env brief p).isOk = true := by
  unfold productSaves at h
  cases hres : resolve_hero env brief p with
  | error e => rw [hres] at h; simp at h
  | ok v =>
    rw [hres] at h
    simp only [List.mem_map] at h
    obtain ⟨r, _, hr⟩ := h
    exact ⟨by rw [← hr]; rfl, rfl⟩

/-- The state an aborted or completed product loop leaves behind. -/
def finalState : Except (String × RunState) RunState → RunState
  | .ok st => st
  | .error (_, st) => st

theorem process_products_saved {Img : Type} (env : PipelineEnv Img)
    (brief : CampaignBrief) (ratios : List AspectRatio) :
    ∀ (ps : List Product) (st : RunState) (ev : SaveEvent),
    ev ∈ (finalState (process_products env brief ratios ps st)).saved →
    ev ∈ st.saved ∨ ∃ p ∈ ps, ev ∈ productSaves env brief ratios p := by
  intro ps
  induction ps with
  | nil =>
    intro st ev h
    simp only [process_products, finalState] at h
    exact Or.inl h
  | cons p ps ih =>
    intro st ev h
    cases hres : resolve_hero env brief p with
    | error e =>
      have hpp : process_product env brief ratios st p = .error (e, st) := by
        simp [process_product, hres]
      simp only [process_products, hpp, finalState] at h
      exact Or.inl h
    | ok v =>
      obtain ⟨hero_image, source, prompt_used⟩ := v
      have hpp : process_product env brief ratios st p = .ok
          { generated_assets := st.generated_assets ++
              productAssets env brief ratios p,
            compliance_results := st.compliance_results ++
              productCompliance env brief ratios p,
            saved := st.saved ++ productSaves env brief ratios p } :=
        process_product_ok env brief ratios st p (by rw [hres]; rfl)
      simp only [process_products, hpp] at h
      rcases ih _ ev h with h1 | ⟨q, hq, hqs⟩
      · simp only [List.mem_append] at h1
        rcases h1 with h1 | h1
        · exact Or.inl h1
        · exact Or.inr ⟨p, List.mem_cons_self p ps, h1⟩
      · exact Or.inr ⟨q, List.mem_cons_of_mem p hq, hqs⟩

theorem run_state_cases {Img : Type} (env : PipelineEnv Img) (brief : CampaignBrief)
    (ratios : List AspectRatio) :
    (run env brief ratios).state = RunState.empty ∨
    (run env brief ratios).state =
      finalState (process_products env (localize env brief) ratios
        (localize env brief).products RunState.empty) := by
  by_cases hv : (validate_brief brief).1 = false
  · left
    simp [run, hv]
  · right
    simp only [run, if_neg hv, pipeline_moderation_ok]
    cases hpp : process_products env (localize env brief) ratios
        (localize env brief).products RunState.empty with
    | error es => cases es; simp [finalState]
    | ok st => simp [finalState]

/-- Output files are written only for products whose hero resolution
(including generation with retry) succeeded: a product whose generation
exhausts its retries has no output file. -/
theorem run_saved_resolved {Img : Type} (env : PipelineEnv Img) (brief : CampaignBrief)
    (ratios : List AspectRatio) (ev : SaveEvent)
    (hev : ev ∈ (run env brief ratios).state.saved) :
    ∃ p ∈ brief.products, ev.product_id = p.id ∧
      (resolve_hero env (localize env brief) p).isOk = true := by
  rcases run_state_cases env brief ratios with h | h
  · rw [h] at hev
    simp [RunState.empty] at hev
  · rw [h] at hev
    rcases process_products_saved env (localize env brief) ratios
        (localize env brief).products RunState.empty ev hev with h1 | ⟨p, hp, hps⟩
    · simp [RunState.empty] at h1
    · rw [localize_products] at hp
      obtain ⟨hid, hok⟩ := mem_productSaves_id hps
      exact ⟨p, hp, hid, hok⟩

/-- C3: with every backend attempt failing, `generate_with_retry` makes
exactly `max_retries` attempts (the outcome never depends on attempts beyond
the bound, and any error retries indistinguishably) and then raises an error
naming the product and surfacing the last underlying error; and the pipeline
writes no output file for a product whose resolution failed. -/
theorem c3_generate_with_retry {Img : Type} (backend : Nat → Except String Img)
    (errs : Nat → String) (product_name product_description target_audience : String)
    (brand_color : Option String) (n : Nat)
    (hfail : ∀ k, k < n + 1 → backend k = .error (errs k)) :
    generate_with_retry backend product_name product_description target_audience
        brand_color (n + 1) =
      .error ("Failed after " ++ toString (n + 1) ++ " attempts: " ++
        ("Failed to generate image for " ++ product_name ++ ": " ++ errs n))
    ∧ (∀ backend2 : Nat → Except String Img,
        (∀ k, k < n + 1 → backend2 k = backend k) →
        generate_with_retry backend2 product_name product_description target_audience
            brand_color (n + 1) =
          generate_with_retry backend product_name product_description target_audience
            brand_color (n + 1))
    ∧ (∀ (env : PipelineEnv Img) (brief : CampaignBrief) (ratios : List AspectRatio),
        ∀ ev ∈ (run env brief ratios).state.saved, ∃ p ∈ brief.products,
          ev.product_id = p.id ∧
            (resolve_hero env (localize env brief) p).isOk = true) := by
  refine ⟨?_, ?_, ?_⟩
  · unfold generate_with_retry
    rw [retryLoop_all_fail
      (fun k => generate (backend k) product_name product_description target_audience
        brand_color)
      (n + 1)
      (fun k => "Failed to generate image for " ++ product_name ++ ": " ++ errs k)
      (n + 1) 0 none (by omega)
      (fun k hk1 hk2 => by simp [generate, hfail k hk2])]
    simp [showLastError]
  · intro backend2 hb
    unfold generate_with_retry
    exact retryLoop_congr _ _ (n + 1) (n + 1) 0 none (by omega)
      (fun k hk1 hk2 => by simp [generate, hb k hk2])
  · intro env brief ratios ev hev
    exact run_saved_resolved env brief ratios ev hev

/-- C3 witness: a backend that always fails with "boom": after exactly 3
attempts (the default) the error names the product and carries "boom". -/
theorem c3_generate_with_retry_witness :
    generate_with_retry (fun _ => (Except.error "boom" : Except String Nat))
        "Solar Lamp" "desc" "aud" none 3 =
      .error ("Failed after " ++ toString 3 ++ " attempts: " ++
        ("Failed to generate image for " ++ "Solar Lamp" ++ ": " ++ "boom")) := by
  have h := c3_generate_with_retry
    (fun _ => (Except.error "boom" : Except String Nat)) (fun _ => "boom")
    "Solar Lamp" "desc" "aud" none 2 (fun k _ => rfl)
  exact h.1

/-! ## Claim C2 — compliance gating and per-pair persistence -/

theorem length_filter_eq_count_map {α : Type} (l : List α) (f : α → String) (a : String) :
    (l.filter (fun x => f x = a)).length = (l.map f).count a := by
  induction l with
  | nil => rfl
  | cons x xs ih =>
    by_cases h : f x = a
    · rw [List.filter_cons_of_pos (by simpa using h), List.map_cons, List.count_cons]
      simp [h, ih]
    · rw [List.filter_cons_of_neg (by simpa using h), List.map_cons, List.count_cons]
      have hne : ¬ (a == f x) = true := by
        simp only [beq_iff_eq]
        exact fun hc => h hc.symm
      simp [hne, ih, h]

theorem count_map_flatMap {α β γ : Type} [BEq γ] (ps : List α) (f : α → List β)
    (g : β → γ) (x : γ) :
    ((ps.flatMap f).map g).count x = (ps.map (fun p => ((f p).map g).count x)).sum := by
  induction ps with
  | nil => simp
  | cons q qs ih => simp [List.flatMap_cons, List.count_append, ih]

theorem sum_ite_key {α : Type} (key : α → String) (m : Nat) (b : String) :
    ∀ ps : List α, (∃ p ∈ ps, key p = b) → (ps.map key).Nodup →
    (ps.map (fun q => if key q = b then m else 0)).sum = m := by
  intro ps
  induction ps with
  | nil => rintro ⟨p, hp, _⟩; cases hp
  | cons q qs ih =>
    rintro ⟨p, hp, hkey⟩ hnodup
    simp only [List.map_cons, List.nodup_cons] at hnodup
    obtain ⟨hqnot, hqs⟩ := hnodup
    rcases List.mem_cons.mp hp with rfl | hp2
    · simp only [List.map_cons, List.sum_cons, if_pos hkey]
      have hzero : (qs.map (fun r => if key r = b then m else 0)).sum = 0 := by
        apply List.sum_eq_zero
        intro x hx
        rw [List.mem_map] at hx
        obtain ⟨r, hr, hrx⟩ := hx
        have hne : key r ≠ b := fun hc =>
          hqnot (by rw [hkey, ← hc]; exact List.mem_map_of_mem key hr)
        rw [← hrx, if_neg hne]
      omega
    · have hqb : key q ≠ b := fun hc =>
        hqnot (by rw [hc, ← hkey]; exact List.mem_map_of_mem key hp2)
      simp only [List.map_cons, List.sum_cons, if_neg hqb]
      rw [ih ⟨p, hp2, hkey⟩ hqs]
      omega

theorem productCompliance_map_id {Img : Type} (env : PipelineEnv Img)
    (brief : CampaignBrief) (ratios : List AspectRatio) (q : Product)
    (h : (resolve_hero env brief q).isOk = true) :
    (productCompliance env brief ratios q).map (fun e => e.product_id) =
      List.replicate ((ratios.filter (fun r => r.name = "square")).length) q.id := by
  unfold productCompliance
  cases hres : resolve_hero env brief q with
  | error e => rw [hres] at h; simp [Except.isOk, Except.toBool] at h
  | ok v =>
    obtain ⟨hero, src, pr⟩ := v
    simp [List.map_map, mkCompliance, Function.comp]
    exact List.map_const' _ q.id

theorem productAssets_map_pair {Img : Type} (env : PipelineEnv Img)
    (brief : CampaignBrief) (ratios : List AspectRatio) (q : Product)
    (h : (resolve_hero env brief q).isOk = true) :
    (productAssets env brief ratios q).map (fun a => (a.product_id, a.aspect_ratio)) =
      ratios.map (fun r => (q.id, r.name)) := by
  unfold productAssets
  cases hres : resolve_hero env brief q with
  | error e => rw [hres] at h; simp [Except.isOk, Except.toBool] at h
  | ok v =>
    obtain ⟨hero, src, pr⟩ := v
    simp [List.map_map, mkAsset, Function.comp]

theorem productSaves_map_pair {Img : Type} (env : PipelineEnv Img)
    (brief : CampaignBrief) (ratios : List AspectRatio) (q : Product)
    (h : (resolve_hero env brief q).isOk = true) :
    (productSaves env brief ratios q).map (fun s => (s.product_id, s.aspect_ratio)) =
      ratios.map (fun r => (q.id, r.name)) := by
  unfold productSaves
  cases hres : resolve_hero env brief q with
  | error e => rw [hres] at h; simp [Except.isOk, Except.toBool] at h
  | ok v => simp [List.map_map, mkSave, Function.comp]

theorem count_pair_map {α : Type} (l : List α) (f : α → String) (c rn : String) :
    (l.map (fun r => (c, f r))).count (c, rn) = (l.map f).count rn := by
  induction l with
  | nil => rfl
  | cons x xs ih => simp [List.count_cons, ih, Prod.ext_iff]

theorem count_pair_map_ne {α : Type} (l : List α) (f : α → String) (c c2 rn : String)
    (h : c2 ≠ c) : (l.map (fun r => (c2, f r))).count (c, rn) = 0 := by
  rw [List.count_eq_zero]
  intro hc
  rw [List.mem_map] at hc
  obtain ⟨r, _, hr⟩ := hc
  exact h (congrArg Prod.fst hr)

/-- C2: in every completed run, compliance executes exactly once per product
when a (unique) ratio named "square" is configured and never otherwise — with
"square" absent nothing is recorded and no error is raised — while every
(product, ratio) pair yields exactly one `GeneratedAsset` record and one
saved output file, whatever the compliance outcome (the environment, hence
the check's verdict, is universally quantified). -/
theorem c2_compliance_gating {Img : Type} (env : PipelineEnv Img)
    (brief : CampaignBrief) (ratios : List AspectRatio)
    (hval : 2 ≤ brief.products.length)
    (hids : (brief.products.map (fun p => p.id)).Nodup)
    (hnames : (ratios.map (fun r => r.name)).Nodup)
    (hsucc : ∀ p ∈ brief.products, (resolve_hero env (localize env brief) p).isOk = true) :
    (∃ rep, (run env brief ratios).result = .ok rep)
    ∧ (∀ p ∈ brief.products,
        ((run env brief ratios).state.compliance_results.map
          (fun e => e.product_id)).count p.id =
          if "square" ∈ ratios.map (fun r => r.name) then 1 else 0)
    ∧ ("square" ∉ ratios.map (fun r => r.name) →
        (run env brief ratios).state.compliance_results = [])
    ∧ (∀ p ∈ brief.products, ∀ r ∈ ratios,
        ((run env brief ratios).state.generated_assets.map
          (fun a => (a.product_id, a.aspect_ratio))).count (p.id, r.name) = 1
        ∧ ((run env brief ratios).state.saved.map
          (fun s => (s.product_id, s.aspect_ratio))).count (p.id, r.name) = 1) := by
  have hrun := run_ok env brief ratios hval hsucc
  have hprod2 : (localize env brief).products = brief.products :=
    localize_products env brief
  have hsucc2 : ∀ p ∈ brief.products,
      (resolve_hero env (localize env brief) p).isOk = true := hsucc
  refine ⟨⟨_, by rw [hrun]⟩, ?_, ?_, ?_⟩
  · intro p hp
    rw [hrun]
    show (((okState env (localize env brief) ratios).compliance_results).map
      (fun e => e.product_id)).count p.id = _
    simp only [okState]
    rw [hprod2, count_map_flatMap]
    have hcongr : brief.products.map
        (fun q => ((productCompliance env (localize env brief) ratios q).map
          (fun e => e.product_id)).count p.id) =
        brief.products.map (fun q => if q.id = p.id then
          (ratios.filter (fun r => r.name = "square")).length else 0) := by
      apply List.map_congr_left
      intro q hq
      rw [productCompliance_map_id env (localize env brief) ratios q (hsucc2 q hq)]
      simp [List.count_replicate]
    rw [hcongr, sum_ite_key (fun q => q.id) _ p.id brief.products ⟨p, hp, rfl⟩ hids]
    rw [length_filter_eq_count_map]
    by_cases hsq : "square" ∈ ratios.map (fun r => r.name)
    · rw [if_pos hsq, List.count_eq_one_of_mem hnames hsq]
    · rw [if_neg hsq, List.count_eq_zero.mpr hsq]
  · intro hsq
    rw [hrun]
    show (okState env (localize env brief) ratios).compliance_results = []
    simp only [okState]
    rw [List.flatMap_eq_nil_iff]
    intro q hq
    rw [hprod2] at hq
    unfold productCompliance
    cases hres : resolve_hero env (localize env brief) q with
    | error e => rfl
    | ok v =>
      obtain ⟨hero, src, pr⟩ := v
      have hfil : ratios.filter (fun r => r.name = "square") = [] := by
        rw [List.filter_eq_nil_iff]
        intro r hr hcon
        exact hsq (by
          simp only [decide_eq_true_eq] at hcon
          rw [← hcon]
          exact List.mem_map_of_mem _ hr)
      rw [hfil]
      rfl
  · intro p hp r hr
    rw [hrun]
    have hK : (ratios.map (fun x => x.name)).count r.name = 1 :=
      List.count_eq_one_of_mem hnames (List.mem_map_of_mem _ hr)
    constructor
    · show (((okState env (localize env brief) ratios).generated_assets).map
        (fun a => (a.product_id, a.aspect_ratio))).count (p.id, r.name) = 1
      simp only [okState]
      rw [hprod2, count_map_flatMap]
      have hcongr : brief.products.map
          (fun q => ((productAssets env (localize env brief) ratios q).map
            (fun a => (a.product_id, a.aspect_ratio))).count (p.id, r.name)) =
          brief.products.map (fun q => if q.id = p.id then 1 else 0) := by
        apply List.map_congr_left
        intro q hq
        rw [productAssets_map_pair env (localize env brief) ratios q (hsucc2 q hq)]
        by_cases hqp : q.id = p.id
        · rw [if_pos hqp, hqp, count_pair_map, hK]
        · rw [if_neg hqp, count_pair_map_ne _ _ _ _ _ hqp]
      rw [hcongr, sum_ite_key (fun q => q.id) 1 p.id brief.products ⟨p, hp, rfl⟩ hids]
    · show (((okState env (localize env brief) ratios).saved).map
        (fun s => (s.product_id, s.aspect_ratio))).count (p.id, r.name) = 1
      simp only [okState]
      rw [hprod2, count_map_flatMap]
      have hcongr : brief.products.map
          (fun q => ((productSaves env (localize env brief) ratios q).map
            (fun s => (s.product_id, s.aspect_ratio))).count (p.id, r.name)) =
          brief.products.map (fun q => if q.id = p.id then 1 else 0) := by
        apply List.map_congr_left
        intro q hq
        rw [productSaves_map_pair env (localize env brief) ratios q (hsucc2 q hq)]
        by_cases hqp : q.id = p.id
        · rw [if_pos hqp, hqp, count_pair_map, hK]
        · rw [if_neg hqp, count_pair_map_ne _ _ _ _ _ hqp]
      rw [hcongr, sum_ite_key (fun q => q.id) 1 p.id brief.products ⟨p, hp, rfl⟩ hids]

/-- A concrete pipeline environment over `Img := Nat` for witnesses: one
asset file under `assets/`, every external operation succeeding. -/
def witnessEnv : PipelineEnv Nat :=
  { fs := ⟨["root/assets/hero.png"]⟩, campaign_root := "root",
    load_image := fun _ => .ok 0,
    backend := fun _ _ => .ok 1,
    resize_for_aspect_ratio := fun i _ _ => i,
    add_text_overlay := fun i _ => i,
    add_logo := fun i _ => i,
    sample_pixels := fun _ => [[0, 0, 0]],
    translator := fun _ _ t => some t }

/-- A concrete two-product brief for witnesses: the first product's hero
image resolves under `assets/`, the second has none and is generated. -/
def witnessBrief : CampaignBrief :=
  { campaign_id := "camp-1",
    products := [{ id := "p1", name := "Prod One", description := "first product",
                   hero_image := some "hero.png" },
                 { id := "p2", name := "Prod Two", description := "second product" }],
    target_market := { region := "US", language := "en" },
    target_audience := "young adults",
    campaign_message := "Buy now",
    brand_elements := some { logo := none, primary_color := "#112233", font := "Arial" } }

/-- C2 witness: the gating theorem applied to the concrete witness run with
the three default aspect ratios, all hypotheses discharged by computation. -/
theorem c2_compliance_gating_witness :
    (∃ rep, (run witnessEnv witnessBrief default_aspect_ratios).result = .ok rep)
    ∧ (∀ p ∈ witnessBrief.products,
        ((run witnessEnv witnessBrief default_aspect_ratios).state.compliance_results.map
          (fun e => e.product_id)).count p.id =
          if "square" ∈ default_aspect_ratios.map (fun r => r.name) then 1 else 0)
    ∧ ("square" ∉ default_aspect_ratios.map (fun r => r.name) →
        (run witnessEnv witnessBrief default_aspect_ratios).state.compliance_results = [])
    ∧ (∀ p ∈ witnessBrief.products, ∀ r ∈ default_aspect_ratios,
        ((run witnessEnv witnessBrief default_aspect_ratios).state.generated_assets.map
          (fun a => (a.product_id, a.aspect_ratio))).count (p.id, r.name) = 1
        ∧ ((run witnessEnv witnessBrief default_aspect_ratios).state.saved.map
          (fun s => (s.product_id, s.aspect_ratio))).count (p.id, r.name) = 1) :=
  c2_compliance_gating witnessEnv witnessBrief default_aspect_ratios (by decide)
    (by decide) (by decide) (by decide)

/-! ## Claim C10 — per-product source/prompt consistency -/

/-- The source a product's assets carry in a run. -/
def sourceOf {Img : Type} (env : PipelineEnv Img) (brief : CampaignBrief)
    (q : Product) : String :=
  match resolve_hero env brief q with
  | .ok (_, s, _) => s
  | .error _ => "unknown"

/-- The prompt a product's assets carry in a run. -/
def promptOf {Img : Type} (env : PipelineEnv Img) (brief : CampaignBrief)
    (q : Product) : Option String :=
  match resolve_hero env brief q with
  | .ok (_, _, pr) => pr
  | .error _ => none

theorem mem_productAssets {Img : Type} {env : PipelineEnv Img} {brief : CampaignBrief}
    {ratios : List AspectRatio} {q : Product} {a : GeneratedAsset}
    (h : a ∈ productAssets env brief ratios q) :
    a.product_id = q.id ∧ a.source = sourceOf env brief q ∧
      a.prompt_used = promptOf env brief q := by
  unfold productAssets at h
  cases hres : resolve_hero env brief q with
  | error e => rw [hres] at h; simp at h
  | ok v =>
    obtain ⟨hero, src, pr⟩ := v
    rw [hres] at h
    simp only [List.mem_map] at h
    obtain ⟨r, _, hr⟩ := h
    refine ⟨by rw [← hr]; rfl, ?_, ?_⟩ <;>
      simp [sourceOf, promptOf, hres, ← hr, mkAsset]

theorem resolve_hero_source {Img : Type} (env : PipelineEnv Img) (brief : CampaignBrief)
    (q : Product) (v : Img × String × Option String)
    (h : resolve_hero env brief q = .ok v) :
    v.2.1 = "existing" ∨ v.2.1 = "generated" := by
  unfold resolve_hero at h
  split at h
  · split at h
    · injection h with h2
      rw [← h2]
      left
      rfl
    · exact absurd h (by simp)
  · split at h
    · injection h with h2
      rw [← h2]
      right
      rfl
    · exact absurd h (by simp)

theorem sourceOf_mem {Img : Type} (env : PipelineEnv Img) (brief : CampaignBrief)
    (q : Product) (h : (resolve_hero env brief q).isOk = true) :
    sourceOf env brief q = "existing" ∨ sourceOf env brief q = "generated" := by
  unfold sourceOf
  cases hres : resolve_hero env brief q with
  | error e => rw [hres] at h; simp [Except.isOk, Except.toBool] at h
  | ok v =>
    obtain ⟨i, s, pr⟩ := v
    simpa using resolve_hero_source env brief q (i, s, pr) hres

theorem filter_partition_length (l : List GeneratedAsset)
    (h : ∀ a ∈ l, a.source = "generated" ∨ a.source = "existing") :
    (l.filter (fun a => a.source = "generated")).length +
      (l.filter (fun a => a.source = "existing")).length = l.length := by
  induction l with
  | nil => rfl
  | cons x xs ih =>
    have hx := h x (List.mem_cons_self x xs)
    have ihx := ih (fun a ha => h a (List.mem_cons_of_mem x ha))
    rcases hx with hg | he
    · rw [List.filter_cons_of_pos (by simpa using hg),
        List.filter_cons_of_neg (by simp [hg]), List.length_cons, List.length_cons]
      omega
    · rw [List.filter_cons_of_neg (by simp [he]),
        List.filter_cons_of_pos (by simpa using he), List.length_cons, List.length_cons]
      omega

/-- C10: in a completed run every asset's source is "generated" or
"existing"; all assets of one product share one source and one prompt (both
fixed before the ratio loop); every report product's `source`/`prompt_used`
agree with every asset of that product (the "unknown"/`None` fallback is
unreachable since the configured ratio list is nonempty); and the statistics
always satisfy `assets_generated + assets_reused = total_assets`. -/
theorem c10_per_product_consistency {Img : Type} (env : PipelineEnv Img)
    (brief : CampaignBrief) (ratios : List AspectRatio)
    (hval : 2 ≤ brief.products.length)
    (hids : (brief.products.map (fun p => p.id)).Nodup)
    (hr : ratios ≠ [])
    (hsucc : ∀ p ∈ brief.products, (resolve_hero env (localize env brief) p).isOk = true) :
    (∀ a ∈ (run env brief ratios).state.generated_assets,
      a.source = "generated" ∨ a.source = "existing")
    ∧ (∀ a ∈ (run env brief ratios).state.generated_assets,
        ∀ b ∈ (run env brief ratios).state.generated_assets,
        a.product_id = b.product_id →
        a.source = b.source ∧ a.prompt_used = b.prompt_used)
    ∧ (∃ rep, (run env brief ratios).result = .ok rep
        ∧ (∀ pr ∈ rep.products,
            (pr.source = "generated" ∨ pr.source = "existing")
            ∧ ∀ a ∈ (run env brief ratios).state.generated_assets,
                a.product_id = pr.product_id →
                pr.source = a.source ∧ pr.prompt_used = a.prompt_used)
        ∧ rep.statistics.assets_generated + rep.statistics.assets_reused =
            rep.statistics.total_assets) := by
  have hrun := run_ok env brief ratios hval hsucc
  have hprod2 : (localize env brief).products = brief.products :=
    localize_products env brief
  have hstate : (run env brief ratios).state = okState env (localize env brief) ratios := by
    rw [hrun]
  have hmem : ∀ a ∈ (run env brief ratios).state.generated_assets,
      ∃ q ∈ brief.products, a.product_id = q.id ∧
        a.source = sourceOf env (localize env brief) q ∧
        a.prompt_used = promptOf env (localize env brief) q := by
    intro a ha
    rw [hstate] at ha
    simp only [okState, List.mem_flatMap] at ha
    obtain ⟨q, hq, hqa⟩ := ha
    rw [hprod2] at hq
    obtain ⟨h1, h2, h3⟩ := mem_productAssets hqa
    exact ⟨q, hq, h1, h2, h3⟩
  have hclause1 : ∀ a ∈ (run env brief ratios).state.generated_assets,
      a.source = "generated" ∨ a.source = "existing" := by
    intro a ha
    obtain ⟨q, hq, _, h2, _⟩ := hmem a ha
    rcases sourceOf_mem env (localize env brief) q (hsucc q hq) with h | h
    · right; rw [h2, h]
    · left; rw [h2, h]
  have hclause2 : ∀ a ∈ (run env brief ratios).state.generated_assets,
      ∀ b ∈ (run env brief ratios).state.generated_assets,
      a.product_id = b.product_id →
      a.source = b.source ∧ a.prompt_used = b.prompt_used := by
    intro a ha b hb hab
    obtain ⟨qa, hqa, ha1, ha2, ha3⟩ := hmem a ha
    obtain ⟨qb, hqb, hb1, hb2, hb3⟩ := hmem b hb
    have hqid : qa.id = qb.id := by rw [← ha1, ← hb1, hab]
    have hq : qa = qb := List.inj_on_of_nodup_map hids hqa hqb hqid
    subst hq
    exact ⟨by rw [ha2, hb2], by rw [ha3, hb3]⟩
  refine ⟨hclause1, hclause2, ⟨_, by rw [hrun], ?_, ?_⟩⟩
  · intro pr hpr
    have hpr2 : pr ∈ (brief.products.map (fun product =>
        let product_assets := (okState env (localize env brief) ratios).generated_assets.filter
          (fun a => a.product_id = product.id)
        let compliance_data := ((okState env (localize env brief) ratios).compliance_results.find?
          (fun r => r.product_id = product.id)).map (fun r => r.compliance)
        ({ product_id := product.id,
           product_name := product.name,
           source := match product_assets.head? with
             | some a => a.source
             | none => "unknown",
           prompt_used := match product_assets.head? with
             | some a => a.prompt_used
             | none => none,
           compliance := compliance_data,
           variants := product_assets.map (fun a =>
             { aspect_ratio := a.aspect_ratio, file_path := a.file_path }) } : ProductReport))) := by
      rw [← hprod2]
      exact hpr
    rw [List.mem_map] at hpr2
    obtain ⟨p, hp, hFp⟩ := hpr2
    have hpok := hsucc p hp
    have hx : ∃ x ∈ (okState env (localize env brief) ratios).generated_assets,
        x.product_id = p.id := by
      cases hratios : ratios with
      | nil => exact absurd hratios hr
      | cons r0 rest =>
        cases hres : resolve_hero env (localize env brief) p with
        | error e => rw [hres] at hpok; simp [Except.isOk, Except.toBool] at hpok
        | ok v =>
          obtain ⟨hero, src, prm⟩ := v
          refine ⟨mkAsset env.campaign_root p r0 src prm, ?_, rfl⟩
          simp only [okState, List.mem_flatMap]
          refine ⟨p, by rw [hprod2]; exact hp, ?_⟩
          unfold productAssets
          rw [hres]
          exact List.mem_map_of_mem _ (List.mem_cons_self r0 rest)
    obtain ⟨x, hxmem, hxid⟩ := hx
    have hxf : x ∈ (okState env (localize env brief) ratios).generated_assets.filter
        (fun a => a.product_id = p.id) :=
      List.mem_filter.mpr ⟨hxmem, by simp [hxid]⟩
    cases hfil : (okState env (localize env brief) ratios).generated_assets.filter
        (fun a => a.product_id = p.id) with
    | nil => rw [hfil] at hxf; cases hxf
    | cons a0 tl =>
      have ha0f : a0 ∈ (okState env (localize env brief) ratios).generated_assets.filter
          (fun a => a.product_id = p.id) := by
        rw [hfil]
        exact List.mem_cons_self a0 tl
      have ha0m := List.mem_filter.mp ha0f
      have ha0mem : a0 ∈ (run env brief ratios).state.generated_assets := by
        rw [hstate]
        exact ha0m.1
      have ha0id : a0.product_id = p.id := by simpa using ha0m.2
      have hsrc : pr.source = a0.source := by
        rw [← hFp]
        simp only [hfil, List.head?_cons]
      have hprompt : pr.prompt_used = a0.prompt_used := by
        rw [← hFp]
        simp only [hfil, List.head?_cons]
      have hprid : pr.product_id = p.id := by rw [← hFp]
      constructor
      · rw [hsrc]
        exact hclause1 a0 ha0mem
      · intro a ha haid
        have : a.product_id = a0.product_id := by rw [haid, hprid, ha0id]
        obtain ⟨hs, hpu⟩ := hclause2 a ha a0 ha0mem this
        exact ⟨by rw [hsrc, hs], by rw [hprompt, hpu]⟩
  · show (generate_report (localize env brief) brief.campaign_message
        (okState env (localize env brief) ratios)).statistics.assets_generated +
      (generate_report (localize env brief) brief.campaign_message
        (okState env (localize env brief) ratios)).statistics.assets_reused =
      (generate_report (localize env brief) brief.campaign_message
        (okState env (localize env brief) ratios)).statistics.total_assets
    simp only [generate_report]
    apply filter_partition_length
    intro a ha
    apply hclause1
    rw [hstate]
    exact ha

/-- C10 witness: the consistency theorem applied to the concrete witness run,
all hypotheses discharged by computation. -/
theorem c10_per_product_consistency_witness :
    (∀ a ∈ (run witnessEnv witnessBrief default_aspect_ratios).state.generated_assets,
      a.source = "generated" ∨ a.source = "existing")
    ∧ (∀ a ∈ (run witnessEnv witnessBrief default_aspect_ratios).state.generated_assets,
        ∀ b ∈ (run witnessEnv witnessBrief default_aspect_ratios).state.generated_assets,
        a.product_id = b.product_id →
        a.source = b.source ∧ a.prompt_used = b.prompt_used)
    ∧ (∃ rep, (run witnessEnv witnessBrief default_aspect_ratios).result = .ok rep
        ∧ (∀ pr ∈ rep.products,
            (pr.source = "generated" ∨ pr.source = "existing")
            ∧ ∀ a ∈ (run witnessEnv witnessBrief default_aspect_ratios).state.generated_assets,
                a.product_id = pr.product_id →
                pr.source = a.source ∧ pr.prompt_used = a.prompt_used)
        ∧ rep.statistics.assets_generated + rep.statistics.assets_reused =
            rep.statistics.total_assets) :=
  c10_per_product_consistency witnessEnv witnessBrief default_aspect_ratios (by decide)
    (by decide) (by decide) (by decide)

/-! ## Claim C1 — end-to-end two-product scenario -/

theorem retryLoop_ok_prompt {Img : Type} (backend : Nat → Except String Img)
    (pn pd ta : String) (bc : Option String) (m : Nat) :
    ∀ (remaining attempt : Nat) (last : Option String) (r : Img × String),
    retryLoop (fun k => generate (backend k) pn pd ta bc) m remaining attempt last =
      .ok r →
    r.2 = build_prompt pn pd ta bc
  | 0, _, _, _, h => by simp [retryLoop] at h
  | remaining + 1, attempt, last, r, h => by
    simp only [retryLoop] at h
    cases hb : backend attempt with
    | ok img =>
      simp only [hb, generate] at h
      injection h with h2
      rw [← h2]
    | error e =>
      simp only [hb, generate] at h
      exact retryLoop_ok_prompt backend pn pd ta bc m remaining (attempt + 1) _ r h

/-- A successful `generate_with_retry` always returns the deterministic
prompt `build_prompt` constructs. -/
theorem generate_with_retry_prompt {Img : Type} (backend : Nat → Except String Img)
    (pn pd ta : String) (bc : Option String) (m : Nat) (r : Img × String)
    (h : generate_with_retry backend pn pd ta bc m = .ok r) :
    r.2 = build_prompt pn pd ta bc :=
  retryLoop_ok_prompt backend pn pd ta bc m m 0 none r h

/-- The built prompt is never empty: it starts with the product framing. -/
theorem build_prompt_ne_empty (pn pd ta : String) (bc : Option String) :
    build_prompt pn pd ta bc ≠ "" := by
  have hp1 : ("Professional product photography of " ++ pn ++ ".").data.head?
      = some 'P' :=
    string_append_head? _ (string_append_head? _ (by decide))
  have hhead : (build_prompt pn pd ta bc).data.head? = some 'P' := by
    simp only [build_prompt, prompt_parts]
    by_cases hb : optStrFalsy bc = true
    · rw [if_pos hb]
      exact intercalate_cons_head? _ _ hp1
    · rw [if_neg hb]
      exact intercalate_cons_head? _ _ hp1
  intro h
  rw [h] at hhead
  exact Option.noConfusion hhead

/-- C1: for a valid English-language brief with exactly two products — the
first resolving to an existing asset, the second with no hero image and a
succeeding generation — the run completes and produces exactly 6
`GeneratedAsset` records in order: 3 `existing`/no-prompt for the first
product, 3 `generated` with the non-empty built prompt for the second;
exactly one compliance result per product; statistics
{total_products 2, total_assets 6, assets_generated 3, assets_reused 3};
report products in brief order, variants in configuration ratio order
(square, story, landscape). -/
theorem c1_end_to_end {Img : Type} (env : PipelineEnv Img) (brief : CampaignBrief)
    (p1 p2 : Product) (heroPath : String) (img1 img2 : Img) (prompt2 : String)
    (hprods : brief.products = [p1, p2])
    (hlang : brief.target_market.language = "en" ∨ brief.target_market.language = "en-US")
    (hne : p1.id ≠ p2.id)
    (hfind : find_asset env.fs env.campaign_root p1.hero_image = some heroPath)
    (hload : env.load_image heroPath = .ok img1)
    (hp2 : p2.hero_image = none)
    (hgen : generate_with_retry (env.backend p2) p2.name p2.description
        brief.target_audience (brief.brand_elements.map (fun be => be.primary_color)) 3 =
      .ok (img2, prompt2)) :
    ∃ rep, (run env brief default_aspect_ratios).result = .ok rep
      ∧ (run env brief default_aspect_ratios).state.generated_assets.map
          (fun a => (a.product_id, a.aspect_ratio, a.source, a.prompt_used)) =
        [(p1.id, "square", "existing", none), (p1.id, "story", "existing", none),
         (p1.id, "landscape", "existing", none),
         (p2.id, "square", "generated", some prompt2),
         (p2.id, "story", "generated", some prompt2),
         (p2.id, "landscape", "generated", some prompt2)]
      ∧ (run env brief default_aspect_ratios).state.generated_assets.length = 6
      ∧ prompt2 ≠ ""
      ∧ (run env brief default_aspect_ratios).state.compliance_results.map
          (fun e => e.product_id) = [p1.id, p2.id]
      ∧ rep.statistics.total_products = 2
      ∧ rep.statistics.total_assets = 6
      ∧ rep.statistics.assets_generated = 3
      ∧ rep.statistics.assets_reused = 3
      ∧ rep.products.map (fun pr => pr.product_id) = [p1.id, p2.id]
      ∧ (∀ pr ∈ rep.products,
          pr.variants.map (fun v => v.aspect_ratio) = ["square", "story", "landscape"]) := by
  have hloc : localizationEnabled brief = false := by
    rcases hlang with h | h <;> simp [localizationEnabled, h]
  have hlocalize : localize env brief = brief := localize_not_enabled env brief hloc
  have resolve1 : resolve_hero env brief p1 = .ok (img1, "existing", none) := by
    simp only [resolve_hero, hfind, hload]
  have hfa2 : find_asset env.fs env.campaign_root p2.hero_image = none := by
    rw [hp2]
    rfl
  have resolve2 : resolve_hero env brief p2 = .ok (img2, "generated", some prompt2) := by
    simp only [resolve_hero, hfa2, hgen]
  have hval : 2 ≤ brief.products.length := by rw [hprods]; simp
  have hsucc : ∀ p ∈ brief.products,
      (resolve_hero env (localize env brief) p).isOk = true := by
    rw [hlocalize, hprods]
    intro p hp
    rcases List.mem_cons.mp hp with rfl | hp2m
    · rw [resolve1]; rfl
    · rcases List.mem_cons.mp hp2m with rfl | hnil
      · rw [resolve2]; rfl
      · cases hnil
  have hrun := run_ok env brief default_aspect_ratios hval hsucc
  rw [hlocalize] at hrun
  have hstate : (run env brief default_aspect_ratios).state =
      okState env brief default_aspect_ratios := by rw [hrun]
  have hassets : (okState env brief default_aspect_ratios).generated_assets =
      [mkAsset env.campaign_root p1 ⟨"square", [1, 1], 1080, 1080⟩ "existing" none,
       mkAsset env.campaign_root p1 ⟨"story", [9, 16], 1080, 1920⟩ "existing" none,
       mkAsset env.campaign_root p1 ⟨"landscape", [16, 9], 1920, 1080⟩ "existing" none,
       mkAsset env.campaign_root p2 ⟨"square", [1, 1], 1080, 1080⟩ "generated" (some prompt2),
       mkAsset env.campaign_root p2 ⟨"story", [9, 16], 1080, 1920⟩ "generated" (some prompt2),
       mkAsset env.campaign_root p2 ⟨"landscape", [16, 9], 1920, 1080⟩ "generated"
         (some prompt2)] := by
    simp only [okState, hprods, List.flatMap_cons, List.flatMap_nil, List.append_nil,
      productAssets, resolve1, resolve2]
    rfl
  have hcompliance : (okState env brief default_aspect_ratios).compliance_results =
      [mkCompliance env brief p1 img1 ⟨"square", [1, 1], 1080, 1080⟩,
       mkCompliance env brief p2 img2 ⟨"square", [1, 1], 1080, 1080⟩] := by
    simp only [okState, hprods, List.flatMap_cons, List.flatMap_nil, List.append_nil,
      productCompliance, resolve1, resolve2]
    rfl
  refine ⟨generate_report brief brief.campaign_message
    (okState env brief default_aspect_ratios), by rw [hrun], ?_, ?_, ?_, ?_, ?_, ?_, ?_, ?_, ?_, ?_⟩
  · rw [hstate, hassets]
    simp [mkAsset]
  · rw [hstate, hassets]
    rfl
  · have hp := generate_with_retry_prompt (env.backend p2) p2.name p2.description
      brief.target_audience (brief.brand_elements.map (fun be => be.primary_color)) 3
      (img2, prompt2) hgen
    rw [show prompt2 = (img2, prompt2).2 from rfl, hp]
    exact build_prompt_ne_empty _ _ _ _
  · rw [hstate, hcompliance]
    simp [mkCompliance]
  · simp [generate_report, hprods]
  · simp only [generate_report]
    rw [hassets]
    rfl
  · simp only [generate_report]
    rw [hassets]
    simp [mkAsset]
  · simp only [generate_report]
    rw [hassets]
    simp [mkAsset]
  · simp only [generate_report, hprods]
    rfl
  · intro pr hpr
    simp only [generate_report, hprods, List.map_cons, List.map_nil] at hpr
    rw [hassets] at hpr
    rcases List.mem_cons.mp hpr with rfl | hpr2
    · simp [mkAsset, Ne.symm hne]
    · rcases List.mem_cons.mp hpr2 with rfl | hnil
      · simp [mkAsset, hne]
      · cases hnil

/-- C1 witness: the end-to-end theorem applied to the concrete witness run
(product p1 reusing `assets/hero.png`, product p2 generated), every
hypothesis discharged by computation. -/
theorem c1_end_to_end_witness :
    ∃ rep, (run witnessEnv witnessBrief default_aspect_ratios).result = .ok rep
      ∧ (run witnessEnv witnessBrief default_aspect_ratios).state.generated_assets.map
          (fun a => (a.product_id, a.aspect_ratio, a.source, a.prompt_used)) =
        [("p1", "square", "existing", none), ("p1", "story", "existing", none),
         ("p1", "landscape", "existing", none),
         ("p2", "square", "generated",
           some (build_prompt "Prod Two" "second product" "young adults" (some "#112233"))),
         ("p2", "story", "generated",
           some (build_prompt "Prod Two" "second product" "young adults" (some "#112233"))),
         ("p2", "landscape", "generated",
           some (build_prompt "Prod Two" "second product" "young adults" (some "#112233")))]
      ∧ (run witnessEnv witnessBrief default_aspect_ratios).state.generated_assets.length = 6
      ∧ build_prompt "Prod Two" "second product" "young adults" (some "#112233") ≠ ""
      ∧ (run witnessEnv witnessBrief default_aspect_ratios).state.compliance_results.map
          (fun e => e.product_id) = ["p1", "p2"]
      ∧ rep.statistics.total_products = 2
      ∧ rep.statistics.total_assets = 6
      ∧ rep.statistics.assets_generated = 3
      ∧ rep.statistics.assets_reused = 3
      ∧ rep.products.map (fun pr => pr.product_id) = ["p1", "p2"]
      ∧ (∀ pr ∈ rep.products,
          pr.variants.map (fun v => v.aspect_ratio) = ["square", "story", "landscape"]) :=
  c1_end_to_end witnessEnv witnessBrief
    { id := "p1", name := "Prod One", description := "first product",
      hero_image := some "hero.png" }
    { id := "p2", name := "Prod Two", description := "second product" }
    "root/assets/hero.png" 0 1
    (build_prompt "Prod Two" "second product" "young adults" (some "#112233"))
    rfl (Or.inl rfl) (by decide) (by decide) rfl rfl rfl

end CreativeAgency
